import Mathlib

/-!
# srt-xtransmit: the connection-oriented socket (`src/xtransmit/srt_socket.cpp`)

A shallow embedding of `srt::socket`.  The SRT library is an external
collaborator: every library call is answered by an environment `Env`, whose
answers may depend on the calls made so far, and is recorded in the world's
call list.  `Verb()` diagnostics are recorded in a separate log.  A C++
exception is the `raised` outcome, which keeps the world reached at the throw.
-/

set_option autoImplicit false

namespace Xtransmit

/-! ## Constants of the SRT library (`srt.h`) -/

def SRT_ERROR : Int := -1
def SRT_INVALID_SOCK : Int := -1
def SRT_SUCCESS : Int := 0
def SRT_EPOLL_IN : Nat := 1
def SRT_EPOLL_OUT : Nat := 4
def SRT_EPOLL_ERR : Nat := 8
def SRT_ETIMEOUT : Int := 6003
def SRTS_CONNECTED : Int := 5

/-- The socket options this file sets or reads. -/
inductive SRT_SOCKOPT
  | SRTO_SNDSYN
  | SRTO_RCVSYN
  | SRTO_SNDBUF
  deriving DecidableEq, Repr

/-- The enumeration `SocketOption::Mode`; `connection_mode` is a cast of it. -/
inductive connection_mode
  | FAILURE
  | LISTENER
  | CALLER
  | RENDEZVOUS
  deriving DecidableEq, Repr

/-- A resolved address, as `CreateAddrInet` returns it. -/
structure sockaddr_in where
  addr : Nat
  port : Int
  deriving DecidableEq, Repr

/-! ## The option map (`std::map<string, string>`) -/

/-- An association list; the first entry of a key is the entry of the map. -/
abbrev Options := List (String × String)

/-- Number of entries with key `k` as a truth value: `m.count(k)`. -/
def Options.count (m : Options) (k : String) : Bool :=
  m.any (fun e => e.1 == k)

/-- Value stored under `k`: `m.at(k)`; `none` is `std::out_of_range`. -/
def Options.at (m : Options) (k : String) : Option String :=
  (m.find? (fun e => e.1 == k)).map (fun e => e.2)

/-- Removal of key `k`: `m.erase(k)`. -/
def Options.erase (m : Options) (k : String) : Options :=
  m.filter (fun e => !(e.1 == k))

/-- The target descriptor: what `host()`, `portno()` and `parameters()` give. -/
structure UriParser where
  host : String
  portno : Int
  parameters : Options
  deriving DecidableEq, Repr

/-! ## Calls into the library and their record -/

/-- One call to a collaborator, with the arguments the code passes. -/
inductive Call
  | srt_create_socket
  | srt_epoll_create
  | srt_epoll_add_usock (eid u modes : Int)
  | srt_epoll_release (eid : Int)
  | srt_close (u : Int)
  | CreateAddrInet (host : String) (port : Int)
  | srt_bind (u : Int) (sa : sockaddr_in)
  | srt_listen (u backlog : Int)
  | srt_accept (u : Int)
  | srt_connect (u : Int) (sa : sockaddr_in)
  | srt_epoll_wait (eid : Int) (readfds writefds : Bool) (timeout_ms : Int)
  | srt_getsockstate (u : Int)
  | srt_setsockopt (u : Int) (opt : SRT_SOCKOPT) (value : Int)
  | srt_getsockopt (u : Int) (opt : SRT_SOCKOPT)
  | srt_getsndbuffer (u : Int)
  | srt_recvmsg2 (u len : Int)
  | srt_sendmsg2 (u : Int) (data : List Nat) (len : Int)
  | srt_bstats (u : Int) (clear : Bool)
  | srt_getlasterror
  | srt_getlasterror_str
  | UDT_getlasterror
  | ERRORINFO_clear
  | SrtConfigurePre (u : Int) (host : String) (options : Options)
  | SrtConfigurePost (u : Int) (options : Options)
  deriving DecidableEq, Repr

/-- What one `srt_epoll_wait` leaves behind: result, lengths, first ready sockets. -/
structure EpollWait where
  res : Int
  rlen : Int
  wlen : Int
  rready0 : Int
  wready0 : Int
  deriving DecidableEq, Repr

/-- The object `UDT::getlasterror()` refers to. -/
structure ERRORINFO where
  code : Int
  message : String
  deriving DecidableEq, Repr

/-- The counters of `SRT_TRACEBSTATS` that `statistics_csv` prints.  The type
`F` stands for `double`, whose arithmetic and formatting are not modelled. -/
structure SRT_TRACEBSTATS (F : Type) where
  msTimeStamp : Int
  pktFlowWindow : Int
  pktCongestionWindow : Int
  pktFlightSize : Int
  msRTT : F
  mbpsBandwidth : F
  mbpsMaxBW : F
  pktSent : Int
  pktSndLoss : Int
  pktSndDrop : Int
  pktRetrans : Int
  byteSent : Int
  byteAvailSndBuf : Int
  byteSndDrop : Int
  mbpsSendRate : F
  usPktSndPeriod : F
  pktRecv : Int
  pktRcvLoss : Int
  pktRcvDrop : Int
  pktRcvRetrans : Int
  pktRcvBelated : Int
  byteRecv : Int
  byteAvailRcvBuf : Int
  byteRcvLoss : Int
  byteRcvDrop : Int
  mbpsRecvRate : F
  msRcvTsbPdDelay : Int

/-- The collaborators.  Each answer is a function of the calls made before it
and of the arguments.  `false_names` (apputil.hpp of the SRT applications),
`Verbose_on` (`Verbose::on`) and the `double` formatter are fixed data. -/
structure Env (F : Type) where
  srt_create_socket : List Call → Int
  srt_epoll_create : List Call → Int
  srt_epoll_add_usock : List Call → Int → Int → Int → Int
  srt_epoll_release : List Call → Int → Int
  srt_close : List Call → Int → Int
  CreateAddrInet : List Call → String → Int → Except String sockaddr_in
  srt_bind : List Call → Int → sockaddr_in → Int
  srt_listen : List Call → Int → Int → Int
  srt_accept : List Call → Int → Int
  srt_connect : List Call → Int → sockaddr_in → Int
  srt_epoll_wait : List Call → Int → Bool → Bool → Int → EpollWait
  srt_getsockstate : List Call → Int → Int
  srt_setsockopt : List Call → Int → SRT_SOCKOPT → Int → Int
  srt_getsockopt : List Call → Int → SRT_SOCKOPT → Int
  srt_getsndbuffer : List Call → Int → Nat × Nat
  srt_recvmsg2 : List Call → Int → Int → Int × List Nat
  srt_sendmsg2 : List Call → Int → List Nat → Int → Int
  srt_bstats : List Call → Int → Bool → Int × SRT_TRACEBSTATS F
  srt_getlasterror : List Call → Int
  srt_getlasterror_str : List Call → String
  UDT_getlasterror : List Call → ERRORINFO
  SrtConfigurePre : List Call → Int → String → Options → connection_mode × List String
  SrtConfigurePost : List Call → Int → Options → List String
  false_names : List String
  Verbose_on : Bool
  fmt_double : F → String

/-- The state outside the socket object: calls made and diagnostics written. -/
structure World where
  calls : List Call
  log : List String
  deriving DecidableEq, Repr

/-- The exception type `socket_exception`. -/
structure socket_exception where
  what : String
  deriving DecidableEq, Repr

/-- Outcome of an operation: a value, or a raised `socket_exception`. -/
inductive Res (α : Type)
  | ok (a : α) (w : World)
  | raised (e : socket_exception) (w : World)
  deriving Repr

/-- The world an outcome leaves. -/
def Res.world {α : Type} : Res α → World
  | Res.ok _ w => w
  | Res.raised _ w => w

/-- The value of a normal return, if the outcome is one. -/
def Res.returned {α : Type} : Res α → Option α
  | Res.ok a _ => some a
  | Res.raised _ _ => none

/-- The exception of an outcome, if it raised one. -/
def Res.exception {α : Type} : Res α → Option socket_exception
  | Res.ok _ _ => none
  | Res.raised e _ => some e

/-- An operation on the world. -/
def Op (α : Type) : Type := World → Res α

/-- Return without effect. -/
def Op.pure {α : Type} (a : α) : Op α := fun w => Res.ok a w

/-- Sequencing: a raised exception skips the rest. -/
def Op.bind {α β : Type} (x : Op α) (f : α → Op β) : Op β := fun w =>
  match x w with
  | Res.ok a w1 => f a w1
  | Res.raised e w1 => Res.raised e w1

instance : Monad Op where
  pure := Op.pure
  bind := Op.bind

/-- The C++ statement `throw socket_exception(msg)`. -/
def throw_socket_exception {α : Type} (msg : String) : Op α :=
  fun w => Res.raised ⟨msg⟩ w

/-- Record call `c` and hand back the collaborator's answer to it. -/
def call {α : Type} (c : Call) (answer : List Call → α) : Op α :=
  fun w => Res.ok (answer w.calls) { w with calls := w.calls ++ [c] }

/-- The log after writing `lines` to the verbose stream: kept only when `verbose`. -/
def log_if (verbose : Bool) (log lines : List String) : List String :=
  if verbose then log ++ lines else log

/-- One diagnostic written through `Verb()`: kept only when `Verbose::on`. -/
def Verb {F : Type} (env : Env F) (msg : String) : Op Unit :=
  fun w => Res.ok () { w with log := log_if env.Verbose_on w.log [msg] }

/-- Decimal text of an integer, as `operator<<` and `to_string` give it. -/
def to_string (i : Int) : String := toString i

/-- The cast `(int)n` of a `size_t`. -/
def to_int (n : Nat) : Int := ((n : Int) + 2 ^ 31) % 2 ^ 32 - 2 ^ 31

/-- The cast `static_cast<size_t>(i)` of an `int` (64-bit `size_t`). -/
def to_size_t (i : Int) : Nat := (i % 2 ^ 64).toNat

/-! ## The socket object -/

/-- The data members of `srt::socket`. -/
structure socket where
  m_bind_socket : Int
  m_epoll_connect : Int
  m_epoll_io : Int
  m_mode : connection_mode
  m_blocking_mode : Bool
  m_host : String
  m_port : Int
  m_options : Options
  deriving DecidableEq, Repr

/-- Modelled from the spec: the default member initialisers of the class
declaration (srt_socket.hpp, not among the sources).  The spec gives an absent
multiplexer handle (the value `-1` the destructor tests for) and
`blocking = true` when no option says otherwise.  `m_host` and `m_options` are
default-constructed; the values given here to `m_bind_socket`, `m_mode` and
`m_port` are not visible in the sources, and no property stated below is
about them. -/
def socket_defaults : socket :=
  { m_bind_socket := SRT_INVALID_SOCK
    m_epoll_connect := -1
    m_epoll_io := -1
    m_mode := connection_mode.FAILURE
    m_blocking_mode := true
    m_host := ""
    m_port := 0
    m_options := [] }

/-- The first overload of `raise_exception`: the error comes from the library. -/
def raise_exception_udt {F α : Type} (env : Env F) (place : String) : Op α := do
  let udt_error ← call Call.UDT_getlasterror env.UDT_getlasterror
  let udt_result := udt_error.code
  let message := udt_error.message
  Verb env (place ++ " ERROR #" ++ to_string udt_result ++ ": " ++ message)
  call Call.ERRORINFO_clear (fun _ => ())
  throw_socket_exception ("error at " ++ place ++ ": " ++ message)

/-- The second overload of `raise_exception`: the reason is given as text. -/
def raise_exception {F α : Type} (env : Env F) (place reason : String) : Op α := do
  Verb env ("raise exception at " ++ place ++ ": " ++ reason)
  throw_socket_exception ("Error at " ++ place ++ ": " ++ reason)

/-- Writes the warning of `configure_pre` and `configure_post` when verbose. -/
def warn_failures {F : Type} (env : Env F) (failures : List String) : Op Unit :=
  fun w => Res.ok ()
    { w with
      log := log_if env.Verbose_on w.log
        (["WARNING: failed to set options: "] ++ failures.map (fun f => f ++ ", ") ++ [""]) }

/-- The method `configure_pre`: the result code and the object afterwards. -/
def configure_pre {F : Type} (env : Env F) (this : socket) (sock : Int) :
    Op (Int × socket) := do
  let maybe : Int := if this.m_blocking_mode then 1 else 0
  let result ← call (Call.srt_setsockopt sock SRT_SOCKOPT.SRTO_RCVSYN maybe)
    (fun h => env.srt_setsockopt h sock SRT_SOCKOPT.SRTO_RCVSYN maybe)
  if result = -1 then
    pure (result, this)
  else do
    let r ← call (Call.SrtConfigurePre sock this.m_host this.m_options)
      (fun h => env.SrtConfigurePre h sock this.m_host this.m_options)
    let conmode := r.1
    let failures := r.2
    if conmode = connection_mode.FAILURE then do
      warn_failures env failures
      pure (SRT_ERROR, this)
    else
      pure (SRT_SUCCESS, { this with m_mode := conmode })

/-- The method `configure_post`. -/
def configure_post {F : Type} (env : Env F) (this : socket) (sock : Int) : Op Int := do
  let is_blocking : Int := if this.m_blocking_mode then 1 else 0
  let result ← call (Call.srt_setsockopt sock SRT_SOCKOPT.SRTO_SNDSYN is_blocking)
    (fun h => env.srt_setsockopt h sock SRT_SOCKOPT.SRTO_SNDSYN is_blocking)
  if result = -1 then
    pure result
  else do
    let result ← call (Call.srt_setsockopt sock SRT_SOCKOPT.SRTO_RCVSYN is_blocking)
      (fun h => env.srt_setsockopt h sock SRT_SOCKOPT.SRTO_RCVSYN is_blocking)
    if result = -1 then
      pure result
    else do
      let failures ← call (Call.SrtConfigurePost sock this.m_options)
        (fun h => env.SrtConfigurePost h sock this.m_options)
      if !failures.isEmpty then
        warn_failures env failures
      pure 0

/-- The part of the first constructor that reads the "blocking" option. -/
def parse_blocking {F : Type} (env : Env F) (this : socket) : socket :=
  if this.m_options.count "blocking" then
    { this with
      m_blocking_mode :=
        !(env.false_names.contains ((this.m_options.at "blocking").getD ""))
      m_options := this.m_options.erase "blocking" }
  else this

/-- The part of the first constructor that creates and binds the multiplexers. -/
def create_epolls {F : Type} (env : Env F) (this : socket) : Op socket := do
  if !this.m_blocking_mode then
    let ec ← call Call.srt_epoll_create env.srt_epoll_create
    let this := { this with m_epoll_connect := ec }
    if ec = -1 then
      let msg ← call Call.srt_getlasterror_str env.srt_getlasterror_str
      throw_socket_exception msg
    else do
      let modes : Int := Int.ofNat (SRT_EPOLL_OUT ||| SRT_EPOLL_ERR)
      let r ← call (Call.srt_epoll_add_usock this.m_epoll_connect this.m_bind_socket modes)
        (fun h => env.srt_epoll_add_usock h this.m_epoll_connect this.m_bind_socket modes)
      if SRT_ERROR = r then
        let msg ← call Call.srt_getlasterror_str env.srt_getlasterror_str
        throw_socket_exception msg
      else do
        let eio ← call Call.srt_epoll_create env.srt_epoll_create
        let this := { this with m_epoll_io := eio }
        let modes : Int := Int.ofNat (SRT_EPOLL_IN ||| SRT_EPOLL_OUT ||| SRT_EPOLL_ERR)
        let r ← call (Call.srt_epoll_add_usock this.m_epoll_io this.m_bind_socket modes)
          (fun h => env.srt_epoll_add_usock h this.m_epoll_io this.m_bind_socket modes)
        if SRT_ERROR = r then
          let msg ← call Call.srt_getlasterror_str env.srt_getlasterror_str
          throw_socket_exception msg
        else
          pure this
  else
    pure this

/-- The constructor `socket(const UriParser&)`.  When it raises, no object
exists and its destructor does not run. -/
def socket_from_uri {F : Type} (env : Env F) (src_uri : UriParser) : Op socket := do
  let this : socket :=
    { socket_defaults with
      m_host := src_uri.host
      m_port := src_uri.portno
      m_options := src_uri.parameters }
  let s ← call Call.srt_create_socket env.srt_create_socket
  let this := { this with m_bind_socket := s }
  if this.m_bind_socket = SRT_INVALID_SOCK then
    let msg ← call Call.srt_getlasterror_str env.srt_getlasterror_str
    throw_socket_exception msg
  else do
    let this := parse_blocking env this
    let this ← create_epolls env this
    let r ← configure_pre env this this.m_bind_socket
    if SRT_SUCCESS ≠ r.1 then
      let msg ← call Call.srt_getlasterror_str env.srt_getlasterror_str
      throw_socket_exception msg
    else
      pure r.2

/-- The constructor `socket(const int sock, bool blocking)`. -/
def socket_from_handle {F : Type} (env : Env F) (sock : Int) (blocking : Bool) :
    Op socket := do
  let this : socket :=
    { socket_defaults with m_bind_socket := sock, m_blocking_mode := blocking }
  if !this.m_blocking_mode then
    let eio ← call Call.srt_epoll_create env.srt_epoll_create
    let this := { this with m_epoll_io := eio }
    let modes : Int := Int.ofNat (SRT_EPOLL_IN ||| SRT_EPOLL_OUT ||| SRT_EPOLL_ERR)
    let r ← call (Call.srt_epoll_add_usock this.m_epoll_io this.m_bind_socket modes)
      (fun h => env.srt_epoll_add_usock h this.m_epoll_io this.m_bind_socket modes)
    if SRT_ERROR = r then
      let msg ← call Call.srt_getlasterror_str env.srt_getlasterror_str
      throw_socket_exception msg
    else
      pure this
  else
    pure this

/-- The destructor `~socket()`. -/
def socket_destroy {F : Type} (env : Env F) (this : socket) : Op Unit := do
  if !this.m_blocking_mode then
    Verb env ("Releasing epolls for socket " ++ to_string this.m_bind_socket)
    if this.m_epoll_connect ≠ -1 then
      let _ ← call (Call.srt_epoll_release this.m_epoll_connect)
        (fun h => env.srt_epoll_release h this.m_epoll_connect)
    let _ ← call (Call.srt_epoll_release this.m_epoll_io)
      (fun h => env.srt_epoll_release h this.m_epoll_io)
  Verb env ("Closing socket " ++ to_string this.m_bind_socket)
  let _ ← call (Call.srt_close this.m_bind_socket)
    (fun h => env.srt_close h this.m_bind_socket)
  pure ()

/-- The method `listen`. -/
def socket_listen {F : Type} (env : Env F) (this : socket) : Op Unit := do
  let num_clients : Int := 2
  let r ← call (Call.CreateAddrInet this.m_host this.m_port)
    (fun h => env.CreateAddrInet h this.m_host this.m_port)
  match r with
  | Except.error what => raise_exception env "create_addr_inet" what
  | Except.ok sa =>
    Verb env ("Binding a server on " ++ this.m_host ++ ":" ++ to_string this.m_port ++ " ...")
    let res ← call (Call.srt_bind this.m_bind_socket sa)
      (fun h => env.srt_bind h this.m_bind_socket sa)
    if res = SRT_ERROR then
      let _ ← call (Call.srt_close this.m_bind_socket)
        (fun h => env.srt_close h this.m_bind_socket)
      raise_exception_udt env "srt_bind"
    else do
      let res ← call (Call.srt_listen this.m_bind_socket num_clients)
        (fun h => env.srt_listen h this.m_bind_socket num_clients)
      if res = SRT_ERROR then
        let _ ← call (Call.srt_close this.m_bind_socket)
          (fun h => env.srt_close h this.m_bind_socket)
        raise_exception_udt env "srt_listen"
      else do
        Verb env " listening."
        let res ← configure_post env this this.m_bind_socket
        if res = SRT_ERROR then
          raise_exception_udt env "configure_post"
        else
          pure ()

/-- The method `accept`: the new socket object it returns. -/
def socket_accept {F : Type} (env : Env F) (this : socket) : Op socket := do
  if !this.m_blocking_mode then
    Verb env "[ASYNC] "
    let timeout_ms : Int := -1
    let r ← call (Call.srt_epoll_wait this.m_epoll_connect false true timeout_ms)
      (fun h => env.srt_epoll_wait h this.m_epoll_connect false true timeout_ms)
    if r.res = -1 then
      raise_exception_udt env "srt_epoll_wait"
    Verb env ("[EPOLL: " ++ to_string r.wlen ++ " sockets] ")
  let sock ← call (Call.srt_accept this.m_bind_socket)
    (fun h => env.srt_accept h this.m_bind_socket)
  if sock = SRT_INVALID_SOCK then
    raise_exception_udt env "srt_accept"
  Verb env " connected."
  let res ← configure_post env this sock
  if res = SRT_ERROR then
    raise_exception_udt env "configure_post"
  socket_from_handle env sock this.m_blocking_mode

/-- The method `connect`: it returns the object it was called on. -/
def socket_connect {F : Type} (env : Env F) (this : socket) : Op socket := do
  let r ← call (Call.CreateAddrInet this.m_host this.m_port)
    (fun h => env.CreateAddrInet h this.m_host this.m_port)
  match r with
  | Except.error what => raise_exception env "create_addr_inet" what
  | Except.ok sa =>
    Verb env ("Connecting to " ++ this.m_host ++ ":" ++ to_string this.m_port
      ++ (if this.m_blocking_mode then " (SYNC)" else " (ASYNC)"))
    let res ← call (Call.srt_connect this.m_bind_socket sa)
      (fun h => env.srt_connect h this.m_bind_socket sa)
    if res = SRT_ERROR then
      let _ ← call (Call.srt_close this.m_bind_socket)
        (fun h => env.srt_close h this.m_bind_socket)
      raise_exception_udt env "srt_connect"
    if !this.m_blocking_mode then
      let r ← call (Call.srt_epoll_wait this.m_epoll_connect false true (-1))
        (fun h => env.srt_epoll_wait h this.m_epoll_connect false true (-1))
      if r.res ≠ -1 then
        let state ← call (Call.srt_getsockstate this.m_bind_socket)
          (fun h => env.srt_getsockstate h this.m_bind_socket)
        if state ≠ SRTS_CONNECTED then
          raise_exception env "srt::socket::connect"
            ("connection failed, socket state " ++ to_string state)
      else
        raise_exception_udt env "srt_epoll_wait"
    Verb env " connected."
    let res ← configure_post env this this.m_bind_socket
    if res = SRT_ERROR then
      raise_exception_udt env "configure_post"
    pure this

/-- The method `read`: the byte count returned and the buffer afterwards. -/
def socket_read {F : Type} (env : Env F) (this : socket) (buffer : List Nat)
    (timeout_ms : Int) : Op (Nat × List Nat) := do
  if !this.m_blocking_mode then
    let r ← call (Call.srt_epoll_wait this.m_epoll_io true false timeout_ms)
      (fun h => env.srt_epoll_wait h this.m_epoll_io true false timeout_ms)
    let epoll_res := r.res
    if epoll_res = SRT_ERROR then
      let e ← call Call.srt_getlasterror env.srt_getlasterror
      if e = SRT_ETIMEOUT then
        return (0, buffer)
      raise_exception_udt env "socket::read::epoll"
  let r ← call (Call.srt_recvmsg2 this.m_bind_socket (to_int buffer.length))
    (fun h => env.srt_recvmsg2 h this.m_bind_socket (to_int buffer.length))
  let res := r.1
  if SRT_ERROR = res then
    raise_exception_udt env "socket::read::recv"
  return (to_size_t res, r.2)

/-- The method `write`. -/
def socket_write {F : Type} (env : Env F) (this : socket) (buffer : List Nat)
    (timeout_ms : Int) : Op Int := do
  let mut ss : String := ""
  if !this.m_blocking_mode then
    let r ← call (Call.srt_epoll_wait this.m_epoll_io true true timeout_ms)
      (fun h => env.srt_epoll_wait h this.m_epoll_io true true timeout_ms)
    let res := r.res
    if res = SRT_ERROR then
      raise_exception_udt env "socket::write::epoll"
    ss := ss ++ "srt::socket::write: srt_epoll_wait res " ++ to_string res
      ++ " rlen " ++ to_string r.rlen ++ " wlen " ++ to_string r.wlen
      ++ " wsocket " ++ to_string r.wready0
  let res ← call (Call.srt_sendmsg2 this.m_bind_socket buffer (to_int buffer.length))
    (fun h => env.srt_sendmsg2 h this.m_bind_socket buffer (to_int buffer.length))
  if res = SRT_ERROR then
    let bb ← call (Call.srt_getsndbuffer this.m_bind_socket)
      (fun h => env.srt_getsndbuffer h this.m_bind_socket)
    let bytes := bb.2
    let sndbuf ← call (Call.srt_getsockopt this.m_bind_socket SRT_SOCKOPT.SRTO_SNDBUF)
      (fun h => env.srt_getsockopt h this.m_bind_socket SRT_SOCKOPT.SRTO_SNDBUF)
    ss := ss ++ " SND Buffer: " ++ toString bytes ++ " / " ++ to_string sndbuf ++ " bytes"
    ss := ss ++ " (" ++ toString (to_size_t (sndbuf - (bytes : Int))) ++ " bytes remaining)"
    ss := ss ++ "trying to write " ++ toString buffer.length ++ "bytes"
    let msg ← call Call.srt_getlasterror_str env.srt_getlasterror_str
    raise_exception env "socket::write::send" (msg ++ ss)
  return res

/-- The method `mode`. -/
def socket_mode (this : socket) : connection_mode := this.m_mode

/-- The method `statistics`: the result code and the structure filled in. -/
def socket_statistics {F : Type} (env : Env F) (this : socket) :
    Op (Int × SRT_TRACEBSTATS F) :=
  call (Call.srt_bstats this.m_bind_socket true)
    (fun h => env.srt_bstats h this.m_bind_socket true)

/-- The header that `statistics_csv` writes, before its `endl`. -/
def csv_header : String :=
  "Time,SocketID,pktFlowWindow,pktCongestionWindow,pktFlightSize,"
  ++ "msRTT,mbpsBandwidth,mbpsMaxBW,pktSent,pktSndLoss,pktSndDrop,"
  ++ "pktRetrans,byteSent,byteAvailSndBuf,byteSndDrop,mbpsSendRate,usPktSndPeriod,"
  ++ "pktRecv,pktRcvLoss,pktRcvDrop,pktRcvRetrans,pktRcvBelated,"
  ++ "byteRecv,byteAvailRcvBuf,byteRcvLoss,byteRcvDrop,mbpsRecvRate,msRcvTsbPdDelay"

/-- The data line that `statistics_csv` writes, before its `endl`. -/
def csv_data {F : Type} (env : Env F) (this : socket) (stats : SRT_TRACEBSTATS F) :
    String :=
  to_string stats.msTimeStamp ++ ","
  ++ to_string this.m_bind_socket ++ ","
  ++ to_string stats.pktFlowWindow ++ ","
  ++ to_string stats.pktCongestionWindow ++ ","
  ++ to_string stats.pktFlightSize ++ ","
  ++ env.fmt_double stats.msRTT ++ ","
  ++ env.fmt_double stats.mbpsBandwidth ++ ","
  ++ env.fmt_double stats.mbpsMaxBW ++ ","
  ++ to_string stats.pktSent ++ ","
  ++ to_string stats.pktSndLoss ++ ","
  ++ to_string stats.pktSndDrop ++ ","
  ++ to_string stats.pktRetrans ++ ","
  ++ to_string stats.byteSent ++ ","
  ++ to_string stats.byteAvailSndBuf ++ ","
  ++ to_string stats.byteSndDrop ++ ","
  ++ env.fmt_double stats.mbpsSendRate ++ ","
  ++ env.fmt_double stats.usPktSndPeriod ++ ","
  ++ to_string stats.pktRecv ++ ","
  ++ to_string stats.pktRcvLoss ++ ","
  ++ to_string stats.pktRcvDrop ++ ","
  ++ to_string stats.pktRcvRetrans ++ ","
  ++ to_string stats.pktRcvBelated ++ ","
  ++ to_string stats.byteRecv ++ ","
  ++ to_string stats.byteAvailRcvBuf ++ ","
  ++ to_string stats.byteRcvLoss ++ ","
  ++ to_string stats.byteRcvDrop ++ ","
  ++ env.fmt_double stats.mbpsRecvRate ++ ","
  ++ to_string stats.msRcvTsbPdDelay

/-- The method `statistics_csv`. -/
def socket_statistics_csv {F : Type} (env : Env F) (this : socket)
    (print_header : Bool) : Op String := do
  let r ← call (Call.srt_bstats this.m_bind_socket true)
    (fun h => env.srt_bstats h this.m_bind_socket true)
  let stats := r.2
  if SRT_ERROR = r.1 then
    raise_exception_udt env "socket::statistics"
  let mut output : String := ""
  if print_header then
    output := output ++ csv_header ++ "\n"
  output := output ++ csv_data env this stats ++ "\n"
  return output

/-! ## Reading a CSV line back -/

/-- The pieces of `cs` between the occurrences of the separator `c`. -/
def split_chars (c : Char) : List Char → List (List Char)
  | [] => [[]]
  | x :: xs =>
    if x = c then [] :: split_chars c xs
    else
      match split_chars c xs with
      | [] => [[x]]
      | f :: fs => (x :: f) :: fs

/-- The comma-separated fields of a line. -/
def csv_fields (line : String) : List String :=
  (split_chars ',' line.data).map String.mk

/-- The lines of a text; a final end of line leaves an empty last piece. -/
def csv_lines (text : String) : List String :=
  (split_chars '\n' text.data).map String.mk

/-- The formatted counters in the order in which `statistics_csv` writes them. -/
def csv_values {F : Type} (env : Env F) (this : socket) (stats : SRT_TRACEBSTATS F) :
    List String :=
  [to_string stats.msTimeStamp, to_string this.m_bind_socket,
    to_string stats.pktFlowWindow, to_string stats.pktCongestionWindow,
    to_string stats.pktFlightSize, env.fmt_double stats.msRTT,
    env.fmt_double stats.mbpsBandwidth, env.fmt_double stats.mbpsMaxBW,
    to_string stats.pktSent, to_string stats.pktSndLoss, to_string stats.pktSndDrop,
    to_string stats.pktRetrans, to_string stats.byteSent,
    to_string stats.byteAvailSndBuf, to_string stats.byteSndDrop,
    env.fmt_double stats.mbpsSendRate, env.fmt_double stats.usPktSndPeriod,
    to_string stats.pktRecv, to_string stats.pktRcvLoss, to_string stats.pktRcvDrop,
    to_string stats.pktRcvRetrans, to_string stats.pktRcvBelated,
    to_string stats.byteRecv, to_string stats.byteAvailRcvBuf,
    to_string stats.byteRcvLoss, to_string stats.byteRcvDrop,
    env.fmt_double stats.mbpsRecvRate, to_string stats.msRcvTsbPdDelay]

/-- The counter a header field names, formatted as the data line prints it:
the column `Time` is the time stamp, `SocketID` the handle, and every other
column is the counter of that name. -/
def counter_named {F : Type} (env : Env F) (this : socket) (stats : SRT_TRACEBSTATS F)
    (name : String) : Option String :=
  if name = "Time" then some (to_string stats.msTimeStamp)
  else if name = "SocketID" then some (to_string this.m_bind_socket)
  else if name = "pktFlowWindow" then some (to_string stats.pktFlowWindow)
  else if name = "pktCongestionWindow" then some (to_string stats.pktCongestionWindow)
  else if name = "pktFlightSize" then some (to_string stats.pktFlightSize)
  else if name = "msRTT" then some (env.fmt_double stats.msRTT)
  else if name = "mbpsBandwidth" then some (env.fmt_double stats.mbpsBandwidth)
  else if name = "mbpsMaxBW" then some (env.fmt_double stats.mbpsMaxBW)
  else if name = "pktSent" then some (to_string stats.pktSent)
  else if name = "pktSndLoss" then some (to_string stats.pktSndLoss)
  else if name = "pktSndDrop" then some (to_string stats.pktSndDrop)
  else if name = "pktRetrans" then some (to_string stats.pktRetrans)
  else if name = "byteSent" then some (to_string stats.byteSent)
  else if name = "byteAvailSndBuf" then some (to_string stats.byteAvailSndBuf)
  else if name = "byteSndDrop" then some (to_string stats.byteSndDrop)
  else if name = "mbpsSendRate" then some (env.fmt_double stats.mbpsSendRate)
  else if name = "usPktSndPeriod" then some (env.fmt_double stats.usPktSndPeriod)
  else if name = "pktRecv" then some (to_string stats.pktRecv)
  else if name = "pktRcvLoss" then some (to_string stats.pktRcvLoss)
  else if name = "pktRcvDrop" then some (to_string stats.pktRcvDrop)
  else if name = "pktRcvRetrans" then some (to_string stats.pktRcvRetrans)
  else if name = "pktRcvBelated" then some (to_string stats.pktRcvBelated)
  else if name = "byteRecv" then some (to_string stats.byteRecv)
  else if name = "byteAvailRcvBuf" then some (to_string stats.byteAvailRcvBuf)
  else if name = "byteRcvLoss" then some (to_string stats.byteRcvLoss)
  else if name = "byteRcvDrop" then some (to_string stats.byteRcvDrop)
  else if name = "mbpsRecvRate" then some (env.fmt_double stats.mbpsRecvRate)
  else if name = "msRcvTsbPdDelay" then some (to_string stats.msRcvTsbPdDelay)
  else none

/-! ## A contract of the library -/

/-- The allocation contract of `srt_epoll_create`: the identifier it returned
after the calls `h` is not returned again by a later creation as long as the
calls made in between (`mid`) do not release it. -/
def fresh_epolls {F : Type} (env : Env F) : Prop :=
  ∀ (h mid : List Call),
    Call.srt_epoll_release (env.srt_epoll_create h) ∉ mid →
    env.srt_epoll_create (h ++ Call.srt_epoll_create :: mid) ≠ env.srt_epoll_create h

/-! ## Concrete collaborators used to run the operations -/

/-- A counters snapshot with small values; `double` is played by `Nat`. -/
def demo_stats : SRT_TRACEBSTATS Nat :=
  { msTimeStamp := 1, pktFlowWindow := 2, pktCongestionWindow := 3, pktFlightSize := 4
    msRTT := 5, mbpsBandwidth := 6, mbpsMaxBW := 7, pktSent := 8, pktSndLoss := 9
    pktSndDrop := 10, pktRetrans := 11, byteSent := 12, byteAvailSndBuf := 13
    byteSndDrop := 14, mbpsSendRate := 15, usPktSndPeriod := 16, pktRecv := 17
    pktRcvLoss := 18, pktRcvDrop := 19, pktRcvRetrans := 20, pktRcvBelated := 21
    byteRecv := 22, byteAvailRcvBuf := 23, byteRcvLoss := 24, byteRcvDrop := 25
    mbpsRecvRate := 26, msRcvTsbPdDelay := 27 }

/-- A library in which every call succeeds: handles are numbered by the number
of calls made before, the peer is connected, and nothing is logged. -/
def env_ok : Env Nat :=
  { srt_create_socket := fun h => 100 + h.length
    srt_epoll_create := fun h => 200 + h.length
    srt_epoll_add_usock := fun _ _ _ _ => 0
    srt_epoll_release := fun _ _ => 0
    srt_close := fun _ _ => 0
    CreateAddrInet := fun _ _ port => Except.ok ⟨2130706433, port⟩
    srt_bind := fun _ _ _ => 0
    srt_listen := fun _ _ _ => 0
    srt_accept := fun h _ => 300 + h.length
    srt_connect := fun _ _ _ => 0
    srt_epoll_wait := fun _ _ _ _ _ => ⟨1, 0, 1, -1, 100⟩
    srt_getsockstate := fun _ _ => SRTS_CONNECTED
    srt_setsockopt := fun _ _ _ _ => 0
    srt_getsockopt := fun _ _ _ => 0
    srt_getsndbuffer := fun _ _ => (0, 0)
    srt_recvmsg2 := fun _ _ _ => (2, [7, 7])
    srt_sendmsg2 := fun _ _ _ len => len
    srt_bstats := fun _ _ _ => (0, demo_stats)
    srt_getlasterror := fun _ => 0
    srt_getlasterror_str := fun _ => "Success"
    UDT_getlasterror := fun _ => ⟨0, "Success"⟩
    SrtConfigurePre := fun _ _ _ _ => (connection_mode.CALLER, [])
    SrtConfigurePost := fun _ _ _ => []
    false_names := ["0", "no", "off", "false"]
    Verbose_on := false
    fmt_double := fun d => toString d }

/-- The library when a multiplexer wait runs into its deadline. -/
def env_timeout : Env Nat :=
  { env_ok with
    srt_epoll_wait := fun _ _ _ _ _ => ⟨SRT_ERROR, 0, 0, -1, -1⟩
    srt_getlasterror := fun _ => SRT_ETIMEOUT
    srt_getlasterror_str := fun _ => "Operation timed out"
    UDT_getlasterror := fun _ => ⟨SRT_ETIMEOUT, "Operation timed out"⟩ }

/-- The library when a multiplexer wait fails for another reason. -/
def env_wait_broken : Env Nat :=
  { env_ok with
    srt_epoll_wait := fun _ _ _ _ _ => ⟨SRT_ERROR, 0, 0, -1, -1⟩
    srt_getlasterror := fun _ => 5013
    srt_getlasterror_str := fun _ => "Invalid epoll ID"
    UDT_getlasterror := fun _ => ⟨5013, "Invalid epoll ID"⟩ }

/-- The library when the multiplexer wakes while the handle is still connecting. -/
def env_unconnected : Env Nat :=
  { env_ok with srt_getsockstate := fun _ _ => 4 }

/-- The library when the statistics query fails. -/
def env_stats_fail : Env Nat :=
  { env_ok with
    srt_bstats := fun _ _ _ => (SRT_ERROR, demo_stats)
    UDT_getlasterror := fun _ => ⟨5004, "Invalid socket ID"⟩ }

/-- The option collaborators report a failed option; the flags are set fine. -/
def env_option_fail : Env Nat :=
  { env_ok with
    SrtConfigurePre := fun _ _ _ _ => (connection_mode.FAILURE, ["latency"])
    SrtConfigurePost := fun _ _ _ => ["maxbw"]
    Verbose_on := true }

/-- The library refuses to bind a multiplexer to the handle. -/
def env_bind_fail : Env Nat :=
  { env_ok with
    srt_epoll_add_usock := fun _ _ _ _ => SRT_ERROR
    srt_getlasterror_str := fun _ => "Invalid epoll ID" }

/-- The socket `accept` returns on `demo_socket` with the library `env_ok`. -/
def demo_accepted : socket :=
  { m_bind_socket := 301, m_epoll_connect := -1, m_epoll_io := 205
    m_mode := connection_mode.FAILURE, m_blocking_mode := false
    m_host := "", m_port := 0, m_options := [] }

/-- A blocking socket as the first constructor leaves it. -/
def demo_blocking : socket :=
  { m_bind_socket := 100, m_epoll_connect := -1, m_epoll_io := -1
    m_mode := connection_mode.CALLER, m_blocking_mode := true
    m_host := "127.0.0.1", m_port := 9000, m_options := [("latency", "120")] }

/-- The calls `listen` makes on `demo_socket` with the library `env_ok`. -/
def demo_listen_calls : List Call :=
  [Call.CreateAddrInet "127.0.0.1" 9000, Call.srt_bind 100 ⟨2130706433, 9000⟩,
    Call.srt_listen 100 2, Call.srt_setsockopt 100 SRT_SOCKOPT.SRTO_SNDSYN 0,
    Call.srt_setsockopt 100 SRT_SOCKOPT.SRTO_RCVSYN 0,
    Call.SrtConfigurePost 100 [("latency", "120")]]

/-- The world after `demo_socket` was constructed with the library `env_ok`. -/
def world_constructed : World :=
  ⟨[Call.srt_create_socket, Call.srt_epoll_create, Call.srt_epoll_add_usock 201 100 12,
    Call.srt_epoll_create, Call.srt_epoll_add_usock 203 100 13,
    Call.srt_setsockopt 100 SRT_SOCKOPT.SRTO_RCVSYN 0,
    Call.SrtConfigurePre 100 "127.0.0.1" [("latency", "120")]], []⟩

/-- The world after `demo_socket` was constructed and put into listening state. -/
def world_listening : World := ⟨world_constructed.calls ++ demo_listen_calls, []⟩

/-- The socket `accept` returns on `demo_socket` in `world_listening`. -/
def demo_accepted_listening : socket :=
  { m_bind_socket := 314, m_epoll_connect := -1, m_epoll_io := 218
    m_mode := connection_mode.FAILURE, m_blocking_mode := false
    m_host := "", m_port := 0, m_options := [] }

/-- The empty world. -/
def world0 : World := ⟨[], []⟩

/-- A target descriptor asking for a non-blocking socket. -/
def uri_nonblocking : UriParser :=
  ⟨"127.0.0.1", 9000, [("blocking", "no"), ("latency", "120")]⟩

/-- A target descriptor without the "blocking" option. -/
def uri_plain : UriParser := ⟨"127.0.0.1", 9000, [("latency", "120")]⟩

/-- A non-blocking socket as the first constructor leaves it. -/
def demo_socket : socket :=
  { m_bind_socket := 100, m_epoll_connect := 201, m_epoll_io := 203
    m_mode := connection_mode.CALLER, m_blocking_mode := false
    m_host := "127.0.0.1", m_port := 9000, m_options := [("latency", "120")] }

/-! ## How the building blocks act on a world -/

@[simp] theorem world_ok {α : Type} (a : α) (w : World) : (Res.ok a w).world = w := rfl

@[simp] theorem world_raised {α : Type} (e : socket_exception) (w : World) :
    (Res.raised e w : Res α).world = w := rfl

@[simp] theorem returned_ok {α : Type} (a : α) (w : World) :
    (Res.ok a w).returned = some a := rfl

@[simp] theorem returned_raised {α : Type} (e : socket_exception) (w : World) :
    (Res.raised e w : Res α).returned = none := rfl

@[simp] theorem exception_ok {α : Type} (a : α) (w : World) :
    (Res.ok a w).exception = none := rfl

@[simp] theorem exception_raised {α : Type} (e : socket_exception) (w : World) :
    (Res.raised e w : Res α).exception = some e := rfl

/-- What `Verb` does to a world. -/
theorem verb_apply {F : Type} (env : Env F) (msg : String) (w : World) :
    Verb env msg w = Res.ok () ⟨w.calls, log_if env.Verbose_on w.log [msg]⟩ := rfl

/-- What `warn_failures` does to a world. -/
theorem warn_failures_apply {F : Type} (env : Env F) (failures : List String) (w : World) :
    warn_failures env failures w =
      Res.ok () ⟨w.calls, log_if env.Verbose_on w.log
        (["WARNING: failed to set options: "] ++ failures.map (fun f => f ++ ", ")
          ++ [""])⟩ := rfl

/-- The first overload of `raise_exception` always raises, after two calls. -/
theorem raise_exception_udt_apply {F α : Type} (env : Env F) (place : String) (w : World) :
    (raise_exception_udt env place : Op α) w =
      Res.raised ⟨"error at " ++ place ++ ": " ++ (env.UDT_getlasterror w.calls).message⟩
        ⟨w.calls ++ [Call.UDT_getlasterror, Call.ERRORINFO_clear],
          log_if env.Verbose_on w.log
            [place ++ " ERROR #" ++ to_string (env.UDT_getlasterror w.calls).code
              ++ ": " ++ (env.UDT_getlasterror w.calls).message]⟩ := by
  simp [raise_exception_udt, bind, Op.bind, call, verb_apply, throw_socket_exception]

/-- The second overload of `raise_exception` always raises, without a call. -/
theorem raise_exception_apply {F α : Type} (env : Env F) (place reason : String)
    (w : World) :
    (raise_exception env place reason : Op α) w =
      Res.raised ⟨"Error at " ++ place ++ ": " ++ reason⟩
        ⟨w.calls,
          log_if env.Verbose_on w.log ["raise exception at " ++ place ++ ": " ++ reason]⟩ := by
  simp [raise_exception, bind, Op.bind, verb_apply, throw_socket_exception]

/-! ## The option map -/

/-- A key is counted exactly when a value is stored under it. -/
theorem count_eq_isSome (m : Options) (k : String) : m.count k = (m.at k).isSome := by
  induction m with
  | nil => rfl
  | cons e m ih =>
    simp only [Options.count, Options.at] at ih ⊢
    rw [List.any_cons, List.find?_cons, ih]
    cases (e.1 == k) <;> simp

/-- An erased key is no longer counted. -/
theorem erase_count_self (m : Options) (k : String) : (m.erase k).count k = false := by
  simp [Options.erase, Options.count]

/-- Erasing a key leaves the value under every other key. -/
theorem erase_at_other (m : Options) (k j : String) (h : j ≠ k) :
    (m.erase k).at j = m.at j := by
  induction m with
  | nil => rfl
  | cons e m ih =>
    simp only [Options.erase, Options.at] at ih ⊢
    rw [List.filter_cons, List.find?_cons]
    by_cases hk : e.1 = k
    · have hj : (e.1 == j) = false := by
        rw [hk]; simpa using fun c => h c.symm
      have hk2 : (e.1 == k) = true := by simpa using hk
      simp only [hk2, hj, Bool.not_true]
      exact ih
    · have hk2 : (e.1 == k) = false := by simpa using hk
      simp only [hk2, Bool.not_false, if_true, List.find?_cons]
      cases (e.1 == j)
      · exact ih
      · rfl

/-! ## The constructors, step by step -/

/-- The three ways through `configure_pre`. -/
theorem configure_pre_apply {F : Type} (env : Env F) (this : socket) (sock : Int)
    (w : World) :
    configure_pre env this sock w =
      if env.srt_setsockopt w.calls sock SRT_SOCKOPT.SRTO_RCVSYN
          (if this.m_blocking_mode then 1 else 0) = -1 then
        Res.ok (-1, this)
          ⟨w.calls ++ [Call.srt_setsockopt sock SRT_SOCKOPT.SRTO_RCVSYN
            (if this.m_blocking_mode then 1 else 0)], w.log⟩
      else if (env.SrtConfigurePre
          (w.calls ++ [Call.srt_setsockopt sock SRT_SOCKOPT.SRTO_RCVSYN
            (if this.m_blocking_mode then 1 else 0)]) sock this.m_host this.m_options).1
          = connection_mode.FAILURE then
        Res.ok (SRT_ERROR, this)
          ⟨w.calls ++ [Call.srt_setsockopt sock SRT_SOCKOPT.SRTO_RCVSYN
              (if this.m_blocking_mode then 1 else 0),
              Call.SrtConfigurePre sock this.m_host this.m_options],
            log_if env.Verbose_on w.log
              (["WARNING: failed to set options: "]
                ++ (env.SrtConfigurePre
                    (w.calls ++ [Call.srt_setsockopt sock SRT_SOCKOPT.SRTO_RCVSYN
                      (if this.m_blocking_mode then 1 else 0)]) sock this.m_host
                    this.m_options).2.map (fun f => f ++ ", ")
                ++ [""])⟩
      else
        Res.ok (SRT_SUCCESS,
            { this with
              m_mode := (env.SrtConfigurePre
                (w.calls ++ [Call.srt_setsockopt sock SRT_SOCKOPT.SRTO_RCVSYN
                  (if this.m_blocking_mode then 1 else 0)]) sock this.m_host
                this.m_options).1 })
          ⟨w.calls ++ [Call.srt_setsockopt sock SRT_SOCKOPT.SRTO_RCVSYN
              (if this.m_blocking_mode then 1 else 0),
              Call.SrtConfigurePre sock this.m_host this.m_options], w.log⟩ := by
  unfold configure_pre
  by_cases h1 : env.srt_setsockopt w.calls sock SRT_SOCKOPT.SRTO_RCVSYN
      (if this.m_blocking_mode then 1 else 0) = -1
  · simp [bind, Op.bind, call, pure, Op.pure, h1]
  · by_cases h2 : (env.SrtConfigurePre
        (w.calls ++ [Call.srt_setsockopt sock SRT_SOCKOPT.SRTO_RCVSYN
          (if this.m_blocking_mode then 1 else 0)]) sock this.m_host this.m_options).1
        = connection_mode.FAILURE
    · simp [bind, Op.bind, call, pure, Op.pure, h1, h2, warn_failures_apply]
    · simp [bind, Op.bind, call, pure, Op.pure, h1, h2]

/-- The five ways through the multiplexer part of the first constructor. -/
theorem create_epolls_apply {F : Type} (env : Env F) (this : socket) (w : World) :
    create_epolls env this w =
      if this.m_blocking_mode = true then Res.ok this w
      else if env.srt_epoll_create w.calls = -1 then
        Res.raised ⟨env.srt_getlasterror_str (w.calls ++ [Call.srt_epoll_create])⟩
          ⟨w.calls ++ [Call.srt_epoll_create, Call.srt_getlasterror_str], w.log⟩
      else if SRT_ERROR = env.srt_epoll_add_usock (w.calls ++ [Call.srt_epoll_create])
          (env.srt_epoll_create w.calls) this.m_bind_socket 12 then
        Res.raised
          ⟨env.srt_getlasterror_str (w.calls ++ [Call.srt_epoll_create,
            Call.srt_epoll_add_usock (env.srt_epoll_create w.calls) this.m_bind_socket 12])⟩
          ⟨w.calls ++ [Call.srt_epoll_create,
            Call.srt_epoll_add_usock (env.srt_epoll_create w.calls) this.m_bind_socket 12,
            Call.srt_getlasterror_str], w.log⟩
      else if SRT_ERROR = env.srt_epoll_add_usock
          (w.calls ++ [Call.srt_epoll_create,
            Call.srt_epoll_add_usock (env.srt_epoll_create w.calls) this.m_bind_socket 12,
            Call.srt_epoll_create])
          (env.srt_epoll_create (w.calls ++ [Call.srt_epoll_create,
            Call.srt_epoll_add_usock (env.srt_epoll_create w.calls) this.m_bind_socket 12]))
          this.m_bind_socket 13 then
        Res.raised
          ⟨env.srt_getlasterror_str (w.calls ++ [Call.srt_epoll_create,
            Call.srt_epoll_add_usock (env.srt_epoll_create w.calls) this.m_bind_socket 12,
            Call.srt_epoll_create,
            Call.srt_epoll_add_usock
              (env.srt_epoll_create (w.calls ++ [Call.srt_epoll_create,
                Call.srt_epoll_add_usock (env.srt_epoll_create w.calls) this.m_bind_socket 12]))
              this.m_bind_socket 13])⟩
          ⟨w.calls ++ [Call.srt_epoll_create,
            Call.srt_epoll_add_usock (env.srt_epoll_create w.calls) this.m_bind_socket 12,
            Call.srt_epoll_create,
            Call.srt_epoll_add_usock
              (env.srt_epoll_create (w.calls ++ [Call.srt_epoll_create,
                Call.srt_epoll_add_usock (env.srt_epoll_create w.calls) this.m_bind_socket 12]))
              this.m_bind_socket 13,
            Call.srt_getlasterror_str], w.log⟩
      else
        Res.ok
          { this with
            m_epoll_connect := env.srt_epoll_create w.calls
            m_epoll_io := env.srt_epoll_create (w.calls ++ [Call.srt_epoll_create,
              Call.srt_epoll_add_usock (env.srt_epoll_create w.calls) this.m_bind_socket 12]) }
          ⟨w.calls ++ [Call.srt_epoll_create,
            Call.srt_epoll_add_usock (env.srt_epoll_create w.calls) this.m_bind_socket 12,
            Call.srt_epoll_create,
            Call.srt_epoll_add_usock
              (env.srt_epoll_create (w.calls ++ [Call.srt_epoll_create,
                Call.srt_epoll_add_usock (env.srt_epoll_create w.calls) this.m_bind_socket 12]))
              this.m_bind_socket 13], w.log⟩ := by
  have m12 : Int.ofNat (SRT_EPOLL_OUT ||| SRT_EPOLL_ERR) = 12 := by decide
  have m13 : Int.ofNat (SRT_EPOLL_IN ||| SRT_EPOLL_OUT ||| SRT_EPOLL_ERR) = 13 := by decide
  unfold create_epolls
  rw [m12, m13]
  by_cases hb : this.m_blocking_mode = true
  · simp [hb, pure, Op.pure]
  · by_cases h1 : env.srt_epoll_create w.calls = -1
    · simp [hb, h1, bind, Op.bind, call, throw_socket_exception]
    · by_cases h2 : SRT_ERROR = env.srt_epoll_add_usock (w.calls ++ [Call.srt_epoll_create])
          (env.srt_epoll_create w.calls) this.m_bind_socket 12
      · simp [hb, h1, ← h2, bind, Op.bind, call, throw_socket_exception]
      · by_cases h3 : SRT_ERROR = env.srt_epoll_add_usock
            (w.calls ++ [Call.srt_epoll_create,
              Call.srt_epoll_add_usock (env.srt_epoll_create w.calls) this.m_bind_socket 12,
              Call.srt_epoll_create])
            (env.srt_epoll_create (w.calls ++ [Call.srt_epoll_create,
              Call.srt_epoll_add_usock (env.srt_epoll_create w.calls) this.m_bind_socket 12]))
            this.m_bind_socket 13
        · simp [hb, h1, h2, ← h3, bind, Op.bind, call, throw_socket_exception]
        · simp [hb, h1, h2, h3, bind, Op.bind, call, pure, Op.pure]

/-- Reading the "blocking" option touches only the mode and the option map. -/
theorem parse_blocking_fields {F : Type} (env : Env F) (t : socket) :
    (parse_blocking env t).m_bind_socket = t.m_bind_socket ∧
    (parse_blocking env t).m_epoll_connect = t.m_epoll_connect ∧
    (parse_blocking env t).m_epoll_io = t.m_epoll_io ∧
    (parse_blocking env t).m_mode = t.m_mode ∧
    (parse_blocking env t).m_host = t.m_host ∧
    (parse_blocking env t).m_port = t.m_port := by
  unfold parse_blocking
  split <;> simp

/-- Shape of a successful construction, in terms of the object `p` left by the
parsing of the "blocking" option. -/
theorem socket_from_uri_ok {F : Type} (env : Env F) (uri : UriParser) (w w1 : World)
    (s : socket) (h : socket_from_uri env uri w = Res.ok s w1) :
    ∃ p : socket,
      p = parse_blocking env
        { socket_defaults with
          m_host := uri.host, m_port := uri.portno, m_options := uri.parameters,
          m_bind_socket := env.srt_create_socket w.calls } ∧
      s.m_options = p.m_options ∧ s.m_blocking_mode = p.m_blocking_mode ∧
      s.m_bind_socket = env.srt_create_socket w.calls ∧
      s.m_host = uri.host ∧ s.m_port = uri.portno ∧
      (p.m_blocking_mode = true →
        s.m_epoll_connect = -1 ∧ s.m_epoll_io = -1 ∧
        w1.calls = w.calls ++ [Call.srt_create_socket,
          Call.srt_setsockopt s.m_bind_socket SRT_SOCKOPT.SRTO_RCVSYN 1,
          Call.SrtConfigurePre s.m_bind_socket s.m_host s.m_options]) ∧
      (p.m_blocking_mode = false →
        s.m_epoll_connect = env.srt_epoll_create (w.calls ++ [Call.srt_create_socket]) ∧
        s.m_epoll_connect ≠ -1 ∧
        s.m_epoll_io = env.srt_epoll_create
          (w.calls ++ [Call.srt_create_socket, Call.srt_epoll_create,
            Call.srt_epoll_add_usock s.m_epoll_connect s.m_bind_socket 12]) ∧
        w1.calls = w.calls ++ [Call.srt_create_socket, Call.srt_epoll_create,
          Call.srt_epoll_add_usock s.m_epoll_connect s.m_bind_socket 12,
          Call.srt_epoll_create,
          Call.srt_epoll_add_usock s.m_epoll_io s.m_bind_socket 13,
          Call.srt_setsockopt s.m_bind_socket SRT_SOCKOPT.SRTO_RCVSYN 0,
          Call.SrtConfigurePre s.m_bind_socket s.m_host s.m_options] ∧
        env.srt_epoll_add_usock
          (w.calls ++ [Call.srt_create_socket, Call.srt_epoll_create,
            Call.srt_epoll_add_usock s.m_epoll_connect s.m_bind_socket 12,
            Call.srt_epoll_create])
          s.m_epoll_io s.m_bind_socket 13 ≠ SRT_ERROR) := by
  refine ⟨_, rfl, ?_⟩
  unfold socket_from_uri at h
  simp only [bind, Op.bind, call] at h
  obtain ⟨f1, f2, f3, f4, f5, f6⟩ := parse_blocking_fields env
    { socket_defaults with
      m_host := uri.host, m_port := uri.portno, m_options := uri.parameters,
      m_bind_socket := env.srt_create_socket w.calls }
  generalize parse_blocking env
    { socket_defaults with
      m_host := uri.host, m_port := uri.portno, m_options := uri.parameters,
      m_bind_socket := env.srt_create_socket w.calls } = p at h f1 f2 f3 f4 f5 f6 ⊢
  simp only [socket_defaults] at f1 f2 f3 f4 f5 f6
  split_ifs at h with h0
  · simp [bind, Op.bind, call, throw_socket_exception] at h
  · simp only [bind, Op.bind, create_epolls_apply] at h
    cases hb : p.m_blocking_mode
    · simp only [hb, Bool.false_eq_true, if_false] at h
      split_ifs at h with h1 h2 h3
      all_goals try simp only [configure_pre_apply, hb, Bool.false_eq_true, if_false] at h
      split_ifs at h with h4 h5
      all_goals try simp [SRT_SUCCESS, SRT_ERROR, bind, Op.bind, call, pure, Op.pure,
        throw_socket_exception] at h
      obtain ⟨hs, hw⟩ := h
      subst hs hw
      have h3b := fun e => h3 (Eq.symm e)
      simp only [List.append_assoc, List.cons_append, List.nil_append] at h3b
      simp [hb, f1, f2, f3, f5, f6, h1]
      simpa [f1] using h3b
    · simp only [hb, if_true, configure_pre_apply] at h
      split_ifs at h with h4 h5
      all_goals try simp [SRT_SUCCESS, SRT_ERROR, bind, Op.bind, call, pure, Op.pure,
        throw_socket_exception] at h
      obtain ⟨hs, hw⟩ := h
      subst hs hw
      simp [hb, f1, f2, f3, f5, f6]

/-- The three ways through `configure_post`. -/
theorem configure_post_apply {F : Type} (env : Env F) (this : socket) (sock : Int)
    (w : World) :
    configure_post env this sock w =
      if env.srt_setsockopt w.calls sock SRT_SOCKOPT.SRTO_SNDSYN
          (if this.m_blocking_mode then 1 else 0) = -1 then
        Res.ok (-1)
          ⟨w.calls ++ [Call.srt_setsockopt sock SRT_SOCKOPT.SRTO_SNDSYN
            (if this.m_blocking_mode then 1 else 0)], w.log⟩
      else if env.srt_setsockopt
          (w.calls ++ [Call.srt_setsockopt sock SRT_SOCKOPT.SRTO_SNDSYN
            (if this.m_blocking_mode then 1 else 0)])
          sock SRT_SOCKOPT.SRTO_RCVSYN (if this.m_blocking_mode then 1 else 0) = -1 then
        Res.ok (-1)
          ⟨w.calls ++ [Call.srt_setsockopt sock SRT_SOCKOPT.SRTO_SNDSYN
              (if this.m_blocking_mode then 1 else 0),
            Call.srt_setsockopt sock SRT_SOCKOPT.SRTO_RCVSYN
              (if this.m_blocking_mode then 1 else 0)], w.log⟩
      else
        Res.ok 0
          ⟨w.calls ++ [Call.srt_setsockopt sock SRT_SOCKOPT.SRTO_SNDSYN
              (if this.m_blocking_mode then 1 else 0),
            Call.srt_setsockopt sock SRT_SOCKOPT.SRTO_RCVSYN
              (if this.m_blocking_mode then 1 else 0),
            Call.SrtConfigurePost sock this.m_options],
            log_if
              (!(env.SrtConfigurePost
                (w.calls ++ [Call.srt_setsockopt sock SRT_SOCKOPT.SRTO_SNDSYN
                    (if this.m_blocking_mode then 1 else 0),
                  Call.srt_setsockopt sock SRT_SOCKOPT.SRTO_RCVSYN
                    (if this.m_blocking_mode then 1 else 0)])
                sock this.m_options).isEmpty && env.Verbose_on)
              w.log
              (["WARNING: failed to set options: "]
                ++ (env.SrtConfigurePost
                    (w.calls ++ [Call.srt_setsockopt sock SRT_SOCKOPT.SRTO_SNDSYN
                        (if this.m_blocking_mode then 1 else 0),
                      Call.srt_setsockopt sock SRT_SOCKOPT.SRTO_RCVSYN
                        (if this.m_blocking_mode then 1 else 0)])
                    sock this.m_options).map (fun f => f ++ ", ")
                ++ [""])⟩ := by
  unfold configure_post
  by_cases h1 : env.srt_setsockopt w.calls sock SRT_SOCKOPT.SRTO_SNDSYN
      (if this.m_blocking_mode then 1 else 0) = -1
  · simp [bind, Op.bind, call, pure, Op.pure, h1]
  · by_cases h2 : env.srt_setsockopt
        (w.calls ++ [Call.srt_setsockopt sock SRT_SOCKOPT.SRTO_SNDSYN
          (if this.m_blocking_mode then 1 else 0)])
        sock SRT_SOCKOPT.SRTO_RCVSYN (if this.m_blocking_mode then 1 else 0) = -1
    · simp [bind, Op.bind, call, pure, Op.pure, h1, h2]
    · by_cases h3 : env.SrtConfigurePost
          (w.calls ++ [Call.srt_setsockopt sock SRT_SOCKOPT.SRTO_SNDSYN
              (if this.m_blocking_mode then 1 else 0),
            Call.srt_setsockopt sock SRT_SOCKOPT.SRTO_RCVSYN
              (if this.m_blocking_mode then 1 else 0)])
          sock this.m_options = []
      · simp [bind, Op.bind, call, pure, Op.pure, h1, h2, h3, log_if]
      · simp [bind, Op.bind, call, pure, Op.pure, h1, h2, h3, warn_failures_apply, log_if]

/-- The three ways through the second constructor. -/
theorem socket_from_handle_apply {F : Type} (env : Env F) (sock : Int) (blocking : Bool)
    (w : World) :
    socket_from_handle env sock blocking w =
      if blocking = true then
        Res.ok { socket_defaults with m_bind_socket := sock, m_blocking_mode := true } w
      else if SRT_ERROR = env.srt_epoll_add_usock (w.calls ++ [Call.srt_epoll_create])
          (env.srt_epoll_create w.calls) sock 13 then
        Res.raised
          ⟨env.srt_getlasterror_str (w.calls ++ [Call.srt_epoll_create,
            Call.srt_epoll_add_usock (env.srt_epoll_create w.calls) sock 13])⟩
          ⟨w.calls ++ [Call.srt_epoll_create,
            Call.srt_epoll_add_usock (env.srt_epoll_create w.calls) sock 13,
            Call.srt_getlasterror_str], w.log⟩
      else
        Res.ok
          { socket_defaults with
            m_bind_socket := sock, m_blocking_mode := false
            m_epoll_io := env.srt_epoll_create w.calls }
          ⟨w.calls ++ [Call.srt_epoll_create,
            Call.srt_epoll_add_usock (env.srt_epoll_create w.calls) sock 13], w.log⟩ := by
  have m13 : Int.ofNat (SRT_EPOLL_IN ||| SRT_EPOLL_OUT ||| SRT_EPOLL_ERR) = 13 := by decide
  unfold socket_from_handle
  rw [m13]
  cases blocking
  · by_cases h1 : SRT_ERROR = env.srt_epoll_add_usock (w.calls ++ [Call.srt_epoll_create])
        (env.srt_epoll_create w.calls) sock 13
    · simp [← h1, bind, Op.bind, call, throw_socket_exception]
    · simp [h1, bind, Op.bind, call, pure, Op.pure]
  · simp [pure, Op.pure]

/-- Shape of a successful `accept`: the members of the socket returned and the
calls made. -/
theorem socket_accept_ok {F : Type} (env : Env F) (listener : socket) (w w1 : World)
    (s : socket) (h : socket_accept env listener w = Res.ok s w1) :
    s.m_epoll_connect = -1 ∧
    s.m_blocking_mode = listener.m_blocking_mode ∧
    s.m_bind_socket = env.srt_accept
      (if listener.m_blocking_mode then w.calls
       else w.calls ++ [Call.srt_epoll_wait listener.m_epoll_connect false true (-1)])
      listener.m_bind_socket ∧
    (listener.m_blocking_mode = true →
      s.m_epoll_io = -1 ∧
      w1.calls = w.calls ++ [Call.srt_accept listener.m_bind_socket,
        Call.srt_setsockopt s.m_bind_socket SRT_SOCKOPT.SRTO_SNDSYN 1,
        Call.srt_setsockopt s.m_bind_socket SRT_SOCKOPT.SRTO_RCVSYN 1,
        Call.SrtConfigurePost s.m_bind_socket listener.m_options]) ∧
    (listener.m_blocking_mode = false →
      s.m_epoll_io = env.srt_epoll_create
        (w.calls ++ [Call.srt_epoll_wait listener.m_epoll_connect false true (-1),
          Call.srt_accept listener.m_bind_socket,
          Call.srt_setsockopt s.m_bind_socket SRT_SOCKOPT.SRTO_SNDSYN 0,
          Call.srt_setsockopt s.m_bind_socket SRT_SOCKOPT.SRTO_RCVSYN 0,
          Call.SrtConfigurePost s.m_bind_socket listener.m_options]) ∧
      w1.calls = w.calls ++ [Call.srt_epoll_wait listener.m_epoll_connect false true (-1),
        Call.srt_accept listener.m_bind_socket,
        Call.srt_setsockopt s.m_bind_socket SRT_SOCKOPT.SRTO_SNDSYN 0,
        Call.srt_setsockopt s.m_bind_socket SRT_SOCKOPT.SRTO_RCVSYN 0,
        Call.SrtConfigurePost s.m_bind_socket listener.m_options,
        Call.srt_epoll_create,
        Call.srt_epoll_add_usock s.m_epoll_io s.m_bind_socket 13] ∧
      env.srt_epoll_add_usock
        (w.calls ++ [Call.srt_epoll_wait listener.m_epoll_connect false true (-1),
          Call.srt_accept listener.m_bind_socket,
          Call.srt_setsockopt s.m_bind_socket SRT_SOCKOPT.SRTO_SNDSYN 0,
          Call.srt_setsockopt s.m_bind_socket SRT_SOCKOPT.SRTO_RCVSYN 0,
          Call.SrtConfigurePost s.m_bind_socket listener.m_options,
          Call.srt_epoll_create])
        s.m_epoll_io s.m_bind_socket 13 ≠ SRT_ERROR) := by
  unfold socket_accept at h
  cases hb : listener.m_blocking_mode
  · simp only [hb, Bool.not_false, if_true] at h
    iterate 5
      all_goals try simp only [hb, bind, Op.bind, call, pure, Op.pure, verb_apply,
        raise_exception_udt_apply, configure_post_apply, socket_from_handle_apply,
        Bool.false_eq_true, if_false, SRT_ERROR, SRT_INVALID_SOCK] at h
      all_goals try split_ifs at h
    all_goals try simp at h
    all_goals
      obtain ⟨hs, hw⟩ := h
      subst hs hw
      simp [socket_defaults, SRT_ERROR]
      intro e
      simp_all
  · simp only [hb, Bool.not_true, Bool.false_eq_true, if_false] at h
    iterate 5
      all_goals try simp only [hb, bind, Op.bind, call, pure, Op.pure, verb_apply,
        raise_exception_udt_apply, configure_post_apply, socket_from_handle_apply,
        Bool.false_eq_true, if_false, if_true, SRT_ERROR, SRT_INVALID_SOCK] at h
      all_goals try split_ifs at h
    all_goals try simp at h
    all_goals
      obtain ⟨hs, hw⟩ := h
      subst hs hw
      simp [socket_defaults]

/-- The destructor never raises; its calls depend on the mode and on the
connect-phase member. -/
theorem socket_destroy_apply {F : Type} (env : Env F) (this : socket) (w : World) :
    socket_destroy env this w =
      Res.ok ()
        ⟨w.calls ++
          (if this.m_blocking_mode = true then []
           else if this.m_epoll_connect ≠ -1 then
             [Call.srt_epoll_release this.m_epoll_connect,
              Call.srt_epoll_release this.m_epoll_io]
           else [Call.srt_epoll_release this.m_epoll_io])
          ++ [Call.srt_close this.m_bind_socket],
         log_if env.Verbose_on
           (if this.m_blocking_mode = true then w.log
            else log_if env.Verbose_on w.log
              ["Releasing epolls for socket " ++ to_string this.m_bind_socket])
           ["Closing socket " ++ to_string this.m_bind_socket]⟩ := by
  unfold socket_destroy
  cases hb : this.m_blocking_mode
  · by_cases hc : this.m_epoll_connect = -1
    · simp [hc, bind, Op.bind, call, pure, Op.pure, verb_apply]
    · simp [hc, bind, Op.bind, call, pure, Op.pure, verb_apply]
  · simp [bind, Op.bind, call, pure, Op.pure, verb_apply]

/-! ## The CSV text -/

/-- A text without the separator is one piece. -/
theorem split_chars_no_sep (c : Char) (a : List Char) (h : c ∉ a) :
    split_chars c a = [a] := by
  induction a with
  | nil => rfl
  | cons x xs ih =>
    have hx : x ≠ c := fun e => h (by simp [e])
    have hxs : c ∉ xs := fun e => h (by simp [e])
    unfold split_chars
    rw [if_neg hx, ih hxs]

/-- A first piece without the separator is split off at the separator. -/
theorem split_chars_append (c : Char) (a rest : List Char) (h : c ∉ a) :
    split_chars c (a ++ c :: rest) = a :: split_chars c rest := by
  induction a with
  | nil => simp [split_chars]
  | cons x xs ih =>
    have hx : x ≠ c := fun e => h (by simp [e])
    have hxs : c ∉ xs := fun e => h (by simp [e])
    rw [List.cons_append, split_chars, if_neg hx, ih hxs]

/-- The names in the header of `statistics_csv`. -/
theorem csv_header_fields :
    csv_fields csv_header =
      ["Time", "SocketID", "pktFlowWindow", "pktCongestionWindow", "pktFlightSize",
        "msRTT", "mbpsBandwidth", "mbpsMaxBW", "pktSent", "pktSndLoss", "pktSndDrop",
        "pktRetrans", "byteSent", "byteAvailSndBuf", "byteSndDrop", "mbpsSendRate",
        "usPktSndPeriod", "pktRecv", "pktRcvLoss", "pktRcvDrop", "pktRcvRetrans",
        "pktRcvBelated", "byteRecv", "byteAvailRcvBuf", "byteRcvLoss", "byteRcvDrop",
        "mbpsRecvRate", "msRcvTsbPdDelay"] := by
  rfl

/-- The data line reads back as the values written, when none holds a comma. -/
theorem csv_data_fields {F : Type} (env : Env F) (this : socket)
    (stats : SRT_TRACEBSTATS F)
    (hcomma : ∀ v ∈ csv_values env this stats, ',' ∉ v.data) :
    csv_fields (csv_data env this stats) = csv_values env this stats := by
  have c1 := hcomma (to_string stats.msTimeStamp) (by simp [csv_values])
  have c2 := hcomma (to_string this.m_bind_socket) (by simp [csv_values])
  have c3 := hcomma (to_string stats.pktFlowWindow) (by simp [csv_values])
  have c4 := hcomma (to_string stats.pktCongestionWindow) (by simp [csv_values])
  have c5 := hcomma (to_string stats.pktFlightSize) (by simp [csv_values])
  have c6 := hcomma (env.fmt_double stats.msRTT) (by simp [csv_values])
  have c7 := hcomma (env.fmt_double stats.mbpsBandwidth) (by simp [csv_values])
  have c8 := hcomma (env.fmt_double stats.mbpsMaxBW) (by simp [csv_values])
  have c9 := hcomma (to_string stats.pktSent) (by simp [csv_values])
  have c10 := hcomma (to_string stats.pktSndLoss) (by simp [csv_values])
  have c11 := hcomma (to_string stats.pktSndDrop) (by simp [csv_values])
  have c12 := hcomma (to_string stats.pktRetrans) (by simp [csv_values])
  have c13 := hcomma (to_string stats.byteSent) (by simp [csv_values])
  have c14 := hcomma (to_string stats.byteAvailSndBuf) (by simp [csv_values])
  have c15 := hcomma (to_string stats.byteSndDrop) (by simp [csv_values])
  have c16 := hcomma (env.fmt_double stats.mbpsSendRate) (by simp [csv_values])
  have c17 := hcomma (env.fmt_double stats.usPktSndPeriod) (by simp [csv_values])
  have c18 := hcomma (to_string stats.pktRecv) (by simp [csv_values])
  have c19 := hcomma (to_string stats.pktRcvLoss) (by simp [csv_values])
  have c20 := hcomma (to_string stats.pktRcvDrop) (by simp [csv_values])
  have c21 := hcomma (to_string stats.pktRcvRetrans) (by simp [csv_values])
  have c22 := hcomma (to_string stats.pktRcvBelated) (by simp [csv_values])
  have c23 := hcomma (to_string stats.byteRecv) (by simp [csv_values])
  have c24 := hcomma (to_string stats.byteAvailRcvBuf) (by simp [csv_values])
  have c25 := hcomma (to_string stats.byteRcvLoss) (by simp [csv_values])
  have c26 := hcomma (to_string stats.byteRcvDrop) (by simp [csv_values])
  have c27 := hcomma (env.fmt_double stats.mbpsRecvRate) (by simp [csv_values])
  have c28 := hcomma (to_string stats.msRcvTsbPdDelay) (by simp [csv_values])
  have hsep : (",".data : List Char) = [','] := rfl
  simp only [csv_fields, csv_data, String.data_append, hsep, List.append_assoc,
    List.singleton_append, List.cons_append, List.nil_append]
  rw [split_chars_append _ _ _ c1, split_chars_append _ _ _ c2, split_chars_append _ _ _ c3,
    split_chars_append _ _ _ c4, split_chars_append _ _ _ c5, split_chars_append _ _ _ c6,
    split_chars_append _ _ _ c7, split_chars_append _ _ _ c8, split_chars_append _ _ _ c9,
    split_chars_append _ _ _ c10, split_chars_append _ _ _ c11,
    split_chars_append _ _ _ c12, split_chars_append _ _ _ c13,
    split_chars_append _ _ _ c14, split_chars_append _ _ _ c15,
    split_chars_append _ _ _ c16, split_chars_append _ _ _ c17,
    split_chars_append _ _ _ c18, split_chars_append _ _ _ c19,
    split_chars_append _ _ _ c20, split_chars_append _ _ _ c21,
    split_chars_append _ _ _ c22, split_chars_append _ _ _ c23,
    split_chars_append _ _ _ c24, split_chars_append _ _ _ c25,
    split_chars_append _ _ _ c26, split_chars_append _ _ _ c27,
    split_chars_no_sep _ _ c28]
  rfl

/-- Two lines without a line break, each ended by one, read back as such. -/
theorem csv_lines_two (a b : String) (ha : '\n' ∉ a.data) (hb : '\n' ∉ b.data) :
    csv_lines ("" ++ a ++ "\n" ++ b ++ "\n") = [a, b, ""] := by
  have hnl : ("\n".data : List Char) = ['\n'] := rfl
  have hemp : ("".data : List Char) = [] := rfl
  simp only [csv_lines, String.data_append, hnl, hemp, List.append_assoc,
    List.singleton_append, List.cons_append, List.nil_append]
  rw [split_chars_append _ _ _ ha, split_chars_append _ _ _ hb]
  rfl

/-- The text `statistics_csv(true)` returns when the query succeeds. -/
theorem statistics_csv_apply {F : Type} (env : Env F) (this : socket) (w : World)
    (hok : (env.srt_bstats w.calls this.m_bind_socket true).1 ≠ SRT_ERROR) :
    socket_statistics_csv env this true w =
      Res.ok
        ("" ++ csv_header ++ "\n"
          ++ csv_data env this (env.srt_bstats w.calls this.m_bind_socket true).2 ++ "\n")
        ⟨w.calls ++ [Call.srt_bstats this.m_bind_socket true], w.log⟩ := by
  have hok2 : ¬ SRT_ERROR = (env.srt_bstats w.calls this.m_bind_socket true).1 :=
    fun e => hok e.symm
  unfold socket_statistics_csv
  simp only [bind, Op.bind, call]
  rw [if_neg hok2]
  rfl

/-! ## What the option collaborators can change -/

/-- A construction that succeeds recorded a mode the collaborator reported,
and that mode is not `FAILURE`. -/
theorem socket_from_uri_mode {F : Type} (env : Env F) (uri : UriParser) (w w1 : World)
    (s : socket) (h : socket_from_uri env uri w = Res.ok s w1) :
    s.m_mode ≠ connection_mode.FAILURE ∧
    s.m_mode =
      (env.SrtConfigurePre w1.calls.dropLast s.m_bind_socket s.m_host s.m_options).1 := by
  unfold socket_from_uri at h
  simp only [bind, Op.bind, call] at h
  generalize parse_blocking env
    { socket_defaults with
      m_host := uri.host, m_port := uri.portno, m_options := uri.parameters,
      m_bind_socket := env.srt_create_socket w.calls } = p at h
  split_ifs at h with h0
  · simp [bind, Op.bind, call, throw_socket_exception] at h
  · simp only [bind, Op.bind, create_epolls_apply] at h
    cases hb : p.m_blocking_mode
    · simp only [hb, Bool.false_eq_true, if_false] at h
      split_ifs at h with h1 h2 h3
      all_goals try simp only [configure_pre_apply, hb, Bool.false_eq_true, if_false] at h
      split_ifs at h with h4 h5
      all_goals try simp [SRT_SUCCESS, SRT_ERROR, bind, Op.bind, call, pure, Op.pure,
        throw_socket_exception] at h
      obtain ⟨hs, hw⟩ := h
      subst hs hw
      refine ⟨by simpa using h5, ?_⟩
      simp [List.dropLast_append_cons, List.dropLast]
    · simp only [hb, if_true, configure_pre_apply] at h
      split_ifs at h with h4 h5
      all_goals try simp [SRT_SUCCESS, SRT_ERROR, bind, Op.bind, call, pure, Op.pure,
        throw_socket_exception] at h
      obtain ⟨hs, hw⟩ := h
      subst hs hw
      refine ⟨by simpa using h5, ?_⟩
      simp [List.dropLast_append_cons, List.dropLast]

/-- The outcome and calls of `connect` do not depend on what the post-connect
collaborator reports. -/
theorem connect_ignores_option_report {F : Type} (env : Env F) (this : socket) (w : World)
    (g : List Call → Int → Options → List String) :
    (socket_connect { env with SrtConfigurePost := g } this w).returned =
      (socket_connect env this w).returned ∧
    (socket_connect { env with SrtConfigurePost := g } this w).exception =
      (socket_connect env this w).exception ∧
    (socket_connect { env with SrtConfigurePost := g } this w).world.calls =
      (socket_connect env this w).world.calls := by
  unfold socket_connect
  simp only [bind, Op.bind, call]
  cases env.CreateAddrInet w.calls this.m_host this.m_port with
  | error e => simp [raise_exception_apply]
  | ok sa =>
    simp only []
    iterate 6
      all_goals try simp only [bind, Op.bind, call, pure, Op.pure, verb_apply,
        raise_exception_udt_apply, raise_exception_apply, configure_post_apply,
        Bool.not_false, Bool.not_true, if_true, if_false, world_ok, world_raised,
        returned_ok, returned_raised, exception_ok, exception_raised]
      all_goals try split_ifs
    all_goals try simp

/-- The outcome and calls of `listen` do not depend on what the post-connect
collaborator reports. -/
theorem listen_ignores_option_report {F : Type} (env : Env F) (this : socket) (w : World)
    (g : List Call → Int → Options → List String) :
    (socket_listen { env with SrtConfigurePost := g } this w).returned =
      (socket_listen env this w).returned ∧
    (socket_listen { env with SrtConfigurePost := g } this w).exception =
      (socket_listen env this w).exception ∧
    (socket_listen { env with SrtConfigurePost := g } this w).world.calls =
      (socket_listen env this w).world.calls := by
  unfold socket_listen
  simp only [bind, Op.bind, call]
  cases env.CreateAddrInet w.calls this.m_host this.m_port with
  | error e => simp [raise_exception_apply]
  | ok sa =>
    simp only []
    iterate 6
      all_goals try simp only [bind, Op.bind, call, pure, Op.pure, verb_apply,
        raise_exception_udt_apply, raise_exception_apply, configure_post_apply,
        Bool.not_false, Bool.not_true, if_true, if_false, world_ok, world_raised,
        returned_ok, returned_raised, exception_ok, exception_raised]
      all_goals try split_ifs
    all_goals try simp

/-- The outcome and calls of `accept` do not depend on what the post-connect
collaborator reports. -/
theorem accept_ignores_option_report {F : Type} (env : Env F) (this : socket) (w : World)
    (g : List Call → Int → Options → List String) :
    (socket_accept { env with SrtConfigurePost := g } this w).returned =
      (socket_accept env this w).returned ∧
    (socket_accept { env with SrtConfigurePost := g } this w).exception =
      (socket_accept env this w).exception ∧
    (socket_accept { env with SrtConfigurePost := g } this w).world.calls =
      (socket_accept env this w).world.calls := by
  unfold socket_accept
  iterate 8
    all_goals try simp only [bind, Op.bind, call, pure, Op.pure, verb_apply,
      raise_exception_udt_apply, raise_exception_apply, configure_post_apply,
      socket_from_handle_apply,
      Bool.not_false, Bool.not_true, if_true, if_false, world_ok, world_raised,
      returned_ok, returned_raised, exception_ok, exception_raised]
    all_goals try split_ifs
  all_goals try simp

/-- The concrete library `env_ok` keeps the allocation contract: it numbers
multiplexers by the number of calls made before. -/
theorem env_ok_fresh : fresh_epolls env_ok := by
  intro h mid _
  simp [env_ok]
  omega

/-! ## Read and write when the multiplexer wait fails -/

/-- C1: on a non-blocking socket whose wait on the I/O-phase multiplexer fails,
`read` returns exactly 0 without raising and without a receive call when the
last error is `SRT_ETIMEOUT` (the only calls are the wait and the query of the
last error), and raises a `socket_exception` when the last error is any other
code (again without a receive call). -/
theorem read_wait_failure {F : Type} (env : Env F) (this : socket) (buffer : List Nat)
    (timeout_ms : Int) (w : World)
    (hnb : this.m_blocking_mode = false)
    (hfail : (env.srt_epoll_wait w.calls this.m_epoll_io true false timeout_ms).res
      = SRT_ERROR) :
    (env.srt_getlasterror
        (w.calls ++ [Call.srt_epoll_wait this.m_epoll_io true false timeout_ms])
        = SRT_ETIMEOUT →
      socket_read env this buffer timeout_ms w =
        Res.ok (0, buffer)
          ⟨w.calls ++ [Call.srt_epoll_wait this.m_epoll_io true false timeout_ms,
                       Call.srt_getlasterror], w.log⟩) ∧
    (env.srt_getlasterror
        (w.calls ++ [Call.srt_epoll_wait this.m_epoll_io true false timeout_ms])
        ≠ SRT_ETIMEOUT →
      (socket_read env this buffer timeout_ms w).exception =
        some ⟨"error at socket::read::epoll: " ++
          (env.UDT_getlasterror
            (w.calls ++ [Call.srt_epoll_wait this.m_epoll_io true false timeout_ms,
                         Call.srt_getlasterror])).message⟩ ∧
      (socket_read env this buffer timeout_ms w).world.calls =
        w.calls ++ [Call.srt_epoll_wait this.m_epoll_io true false timeout_ms,
                    Call.srt_getlasterror, Call.UDT_getlasterror,
                    Call.ERRORINFO_clear]) := by
  constructor
  · intro h
    simp [socket_read, hnb, bind, Op.bind, call, hfail, h, pure, Op.pure]
  · intro h
    simp [socket_read, hnb, bind, Op.bind, call, hfail, h, pure, Op.pure,
      raise_exception_udt_apply]

/-- C1 at concrete libraries: when the wait times out `read` gives 0 bytes; when
it fails with another code `read` raises. -/
theorem read_wait_failure_witness :
    demo_socket.m_blocking_mode = false ∧
    (env_timeout.srt_epoll_wait world0.calls demo_socket.m_epoll_io true false 100).res
      = SRT_ERROR ∧
    socket_read env_timeout demo_socket [0, 0] 100 world0 =
      Res.ok (0, [0, 0])
        ⟨[Call.srt_epoll_wait 203 true false 100, Call.srt_getlasterror], []⟩ ∧
    (env_wait_broken.srt_epoll_wait world0.calls demo_socket.m_epoll_io true false 100).res
      = SRT_ERROR ∧
    (socket_read env_wait_broken demo_socket [0, 0] 100 world0).exception =
      some ⟨"error at socket::read::epoll: Invalid epoll ID"⟩ :=
  ⟨rfl, rfl, (read_wait_failure env_timeout demo_socket [0, 0] 100 world0 rfl rfl).1 rfl,
    rfl,
    ((read_wait_failure env_wait_broken demo_socket [0, 0] 100 world0 rfl rfl).2
      (by decide)).1⟩

/-- C2: on a non-blocking socket whose wait on the I/O-phase multiplexer fails,
whatever the error code, `write` raises a `socket_exception` and returns no
value; the only calls are the wait and the two of `raise_exception` (no send
call). -/
theorem write_wait_failure {F : Type} (env : Env F) (this : socket) (buffer : List Nat)
    (timeout_ms : Int) (w : World)
    (hnb : this.m_blocking_mode = false)
    (hfail : (env.srt_epoll_wait w.calls this.m_epoll_io true true timeout_ms).res
      = SRT_ERROR) :
    (socket_write env this buffer timeout_ms w).exception =
      some ⟨"error at socket::write::epoll: " ++
        (env.UDT_getlasterror
          (w.calls ++ [Call.srt_epoll_wait this.m_epoll_io true true timeout_ms])).message⟩ ∧
    (socket_write env this buffer timeout_ms w).returned = none ∧
    (socket_write env this buffer timeout_ms w).world.calls =
      w.calls ++ [Call.srt_epoll_wait this.m_epoll_io true true timeout_ms,
                  Call.UDT_getlasterror, Call.ERRORINFO_clear] := by
  simp [socket_write, hnb, bind, Op.bind, call, hfail, pure, Op.pure,
    raise_exception_udt_apply]

/-- C2 at a concrete library: the wait times out, `write` raises. -/
theorem write_wait_failure_witness :
    demo_socket.m_blocking_mode = false ∧
    (env_timeout.srt_epoll_wait world0.calls demo_socket.m_epoll_io true true 100).res
      = SRT_ERROR ∧
    env_timeout.srt_getlasterror [Call.srt_epoll_wait 203 true true 100] = SRT_ETIMEOUT ∧
    (socket_write env_timeout demo_socket [0, 0] 100 world0).returned = none :=
  ⟨rfl, rfl, rfl,
    (write_wait_failure env_timeout demo_socket [0, 0] 100 world0 rfl rfl).2.1⟩

/-! ## Construction from a target descriptor -/

/-- C3: when construction from a target descriptor succeeds, a "blocking" entry
holding a recognised false token gives a non-blocking socket owning exactly two
multiplexer handles (the results of the two creation calls of the construction;
the first one is valid, and so is the second when the library refuses to bind
an invalid multiplexer); an absent entry or any other value gives a blocking
socket, no creation call and both handle members absent.  Either way the
socket's option map has no "blocking" entry and agrees with the descriptor's
map on every other key. -/
theorem construct_blocking_option {F : Type} (env : Env F) (uri : UriParser)
    (w w1 : World) (s : socket) (h : socket_from_uri env uri w = Res.ok s w1) :
    ((∃ v, uri.parameters.at "blocking" = some v ∧ v ∈ env.false_names) →
      s.m_blocking_mode = false ∧
      s.m_epoll_connect = env.srt_epoll_create (w.calls ++ [Call.srt_create_socket]) ∧
      s.m_epoll_connect ≠ -1 ∧
      s.m_epoll_io = env.srt_epoll_create
        (w.calls ++ [Call.srt_create_socket, Call.srt_epoll_create,
          Call.srt_epoll_add_usock s.m_epoll_connect s.m_bind_socket 12]) ∧
      w1.calls.count Call.srt_epoll_create = w.calls.count Call.srt_epoll_create + 2 ∧
      ((∀ h u m, env.srt_epoll_add_usock h (-1) u m = SRT_ERROR) → s.m_epoll_io ≠ -1)) ∧
    ((uri.parameters.at "blocking" = none ∨
        ∃ v, uri.parameters.at "blocking" = some v ∧ v ∉ env.false_names) →
      s.m_blocking_mode = true ∧ s.m_epoll_connect = -1 ∧ s.m_epoll_io = -1 ∧
      w1.calls.count Call.srt_epoll_create = w.calls.count Call.srt_epoll_create) ∧
    s.m_options.count "blocking" = false ∧
    (∀ k, k ≠ "blocking" →
      s.m_options.at k = uri.parameters.at k ∧
      s.m_options.count k = uri.parameters.count k) := by
  obtain ⟨p, hp, ho, hm, hs, hh, hpo, hbl, hnb⟩ := socket_from_uri_ok env uri w w1 s h
  have hpm : p.m_blocking_mode =
      if uri.parameters.count "blocking" then
        !(env.false_names.contains ((uri.parameters.at "blocking").getD ""))
      else true := by
    rw [hp]; unfold parse_blocking; split <;> simp_all [socket_defaults]
  have hpopt : p.m_options =
      if uri.parameters.count "blocking" then uri.parameters.erase "blocking"
      else uri.parameters := by
    rw [hp]; unfold parse_blocking; split <;> simp_all
  refine ⟨?_, ?_, ?_, ?_⟩
  · rintro ⟨v, hv, hmem⟩
    have hc : uri.parameters.count "blocking" = true := by simp [count_eq_isSome, hv]
    have hfalse : p.m_blocking_mode = false := by simp [hpm, hc, hv, hmem]
    obtain ⟨a, b, c, d, e⟩ := hnb hfalse
    refine ⟨by rw [hm, hfalse], a, b, c, ?_, ?_⟩
    · rw [d]
      simp [List.count_append, List.count_cons]
    · intro hrej hio
      rw [hio] at e
      exact e (hrej _ _ _)
  · intro hcase
    have htrue : p.m_blocking_mode = true := by
      rcases hcase with hnone | ⟨v, hv, hmem⟩
      · have hc : uri.parameters.count "blocking" = false := by
          simp [count_eq_isSome, hnone]
        simp [hpm, hc]
      · have hc : uri.parameters.count "blocking" = true := by simp [count_eq_isSome, hv]
        simp [hpm, hc, hv, hmem]
    obtain ⟨a, b, c⟩ := hbl htrue
    refine ⟨by rw [hm, htrue], a, b, ?_⟩
    rw [c]
    simp [List.count_append, List.count_cons]
  · rw [ho, hpopt]
    cases hc : uri.parameters.count "blocking"
    · simp [hc]
    · simp [erase_count_self]
  · intro k hk
    rw [ho, hpopt]
    cases hc : uri.parameters.count "blocking"
    · simp
    · simp [erase_at_other _ _ _ hk, count_eq_isSome]

/-- C3 at a concrete library: the descriptor carries "blocking" = "no". -/
theorem construct_blocking_option_witness :
    socket_from_uri env_ok uri_nonblocking world0 =
      Res.ok demo_socket
        ⟨[Call.srt_create_socket, Call.srt_epoll_create,
          Call.srt_epoll_add_usock 201 100 12, Call.srt_epoll_create,
          Call.srt_epoll_add_usock 203 100 13,
          Call.srt_setsockopt 100 SRT_SOCKOPT.SRTO_RCVSYN 0,
          Call.SrtConfigurePre 100 "127.0.0.1" [("latency", "120")]], []⟩ ∧
    (∃ v, uri_nonblocking.parameters.at "blocking" = some v ∧ v ∈ env_ok.false_names) ∧
    demo_socket.m_blocking_mode = false ∧
    demo_socket.m_options.count "blocking" = false ∧
    demo_socket.m_options.at "latency" = uri_nonblocking.parameters.at "latency" :=
  ⟨rfl, ⟨"no", rfl, by decide⟩,
    ((construct_blocking_option env_ok uri_nonblocking world0 _ demo_socket rfl).1
      ⟨"no", rfl, by decide⟩).1,
    (construct_blocking_option env_ok uri_nonblocking world0 _ demo_socket rfl).2.2.1,
    ((construct_blocking_option env_ok uri_nonblocking world0 _ demo_socket rfl).2.2.2
      "latency" (by decide)).1⟩

/-! ## Accept -/

/-- C5: on a non-blocking socket whose address resolves and whose underlying
connect call succeeds: a successful wait followed by a connection state other
than `SRTS_CONNECTED` makes `connect` raise after the state query (one wait,
no post-connect configuration); a failed wait makes it raise; and `connect`
returns, with the object it was called on, only if the wait succeeded and the
state after it is `SRTS_CONNECTED`. -/
theorem connect_wake {F : Type} (env : Env F) (this : socket) (w : World)
    (sa : sockaddr_in)
    (hnb : this.m_blocking_mode = false)
    (haddr : env.CreateAddrInet w.calls this.m_host this.m_port = Except.ok sa)
    (hconn : env.srt_connect (w.calls ++ [Call.CreateAddrInet this.m_host this.m_port])
      this.m_bind_socket sa ≠ SRT_ERROR) :
    ((env.srt_epoll_wait
          (w.calls ++ [Call.CreateAddrInet this.m_host this.m_port,
            Call.srt_connect this.m_bind_socket sa])
          this.m_epoll_connect false true (-1)).res ≠ -1 →
      env.srt_getsockstate
          (w.calls ++ [Call.CreateAddrInet this.m_host this.m_port,
            Call.srt_connect this.m_bind_socket sa,
            Call.srt_epoll_wait this.m_epoll_connect false true (-1)])
          this.m_bind_socket ≠ SRTS_CONNECTED →
      (socket_connect env this w).exception =
        some ⟨"Error at srt::socket::connect: connection failed, socket state " ++
          to_string (env.srt_getsockstate
            (w.calls ++ [Call.CreateAddrInet this.m_host this.m_port,
              Call.srt_connect this.m_bind_socket sa,
              Call.srt_epoll_wait this.m_epoll_connect false true (-1)])
            this.m_bind_socket)⟩ ∧
      (socket_connect env this w).world.calls =
        w.calls ++ [Call.CreateAddrInet this.m_host this.m_port,
          Call.srt_connect this.m_bind_socket sa,
          Call.srt_epoll_wait this.m_epoll_connect false true (-1),
          Call.srt_getsockstate this.m_bind_socket]) ∧
    ((env.srt_epoll_wait
          (w.calls ++ [Call.CreateAddrInet this.m_host this.m_port,
            Call.srt_connect this.m_bind_socket sa])
          this.m_epoll_connect false true (-1)).res = -1 →
      (socket_connect env this w).exception =
        some ⟨"error at srt_epoll_wait: " ++
          (env.UDT_getlasterror
            (w.calls ++ [Call.CreateAddrInet this.m_host this.m_port,
              Call.srt_connect this.m_bind_socket sa,
              Call.srt_epoll_wait this.m_epoll_connect false true (-1)])).message⟩ ∧
      (socket_connect env this w).world.calls =
        w.calls ++ [Call.CreateAddrInet this.m_host this.m_port,
          Call.srt_connect this.m_bind_socket sa,
          Call.srt_epoll_wait this.m_epoll_connect false true (-1),
          Call.UDT_getlasterror, Call.ERRORINFO_clear]) ∧
    (∀ s w1, socket_connect env this w = Res.ok s w1 →
      s = this ∧
      (env.srt_epoll_wait
          (w.calls ++ [Call.CreateAddrInet this.m_host this.m_port,
            Call.srt_connect this.m_bind_socket sa])
          this.m_epoll_connect false true (-1)).res ≠ -1 ∧
      env.srt_getsockstate
          (w.calls ++ [Call.CreateAddrInet this.m_host this.m_port,
            Call.srt_connect this.m_bind_socket sa,
            Call.srt_epoll_wait this.m_epoll_connect false true (-1)])
          this.m_bind_socket = SRTS_CONNECTED) := by
  refine ⟨?_, ?_, ?_⟩
  · intro hw hs
    simp [socket_connect, bind, Op.bind, call, pure, Op.pure, verb_apply, haddr, hconn, hnb,
      hw, hs, raise_exception_apply]
    rw [← String.append_assoc]
    rfl
  · intro hw
    simp [socket_connect, bind, Op.bind, call, pure, Op.pure, verb_apply, haddr, hconn, hnb,
      hw, raise_exception_udt_apply]
  · intro s w1 h
    unfold socket_connect at h
    simp only [bind, Op.bind, call, haddr, hnb, verb_apply] at h
    iterate 6
      all_goals try simp only [bind, Op.bind, call, pure, Op.pure, verb_apply,
        raise_exception_udt_apply, raise_exception_apply, configure_post_apply,
        Bool.not_false, if_true] at h
      all_goals try split_ifs at h
    all_goals try simp at h
    all_goals simp_all

/-- C5 at a concrete library: the multiplexer wakes while the handle is still
connecting, and `connect` raises right after the state query. -/
theorem connect_wake_witness :
    demo_socket.m_blocking_mode = false ∧
    env_unconnected.CreateAddrInet world0.calls demo_socket.m_host demo_socket.m_port
      = Except.ok ⟨2130706433, 9000⟩ ∧
    env_unconnected.srt_connect [Call.CreateAddrInet "127.0.0.1" 9000] 100
      ⟨2130706433, 9000⟩ ≠ SRT_ERROR ∧
    (socket_connect env_unconnected demo_socket world0).exception =
      some ⟨"Error at srt::socket::connect: connection failed, socket state 4"⟩ ∧
    (socket_connect env_unconnected demo_socket world0).world.calls =
      [Call.CreateAddrInet "127.0.0.1" 9000, Call.srt_connect 100 ⟨2130706433, 9000⟩,
        Call.srt_epoll_wait 201 false true (-1), Call.srt_getsockstate 100] :=
  ⟨rfl, rfl, by decide,
    (connect_wake env_unconnected demo_socket world0 ⟨2130706433, 9000⟩ rfl rfl
      (by decide)).1 (by decide) (by decide)⟩

/-! ## Destruction -/

/-- C6: destruction never raises.  For a non-blocking socket built from a
target descriptor its calls are exactly: release of the connect-phase
multiplexer, release of the I/O-phase multiplexer, close of the handle, in this
order.  For a non-blocking socket returned by `accept` they are: release of the
I/O-phase multiplexer, close of the handle.  For a blocking socket the only
call is the close of the handle. -/
theorem destroy_releases {F : Type} (env : Env F) (s : socket) (w : World) :
    (socket_destroy env s w).exception = none ∧
    (s.m_blocking_mode = false →
      (∃ uri w0 w1, socket_from_uri env uri w0 = Res.ok s w1) →
      (socket_destroy env s w).world.calls =
        w.calls ++ [Call.srt_epoll_release s.m_epoll_connect,
          Call.srt_epoll_release s.m_epoll_io, Call.srt_close s.m_bind_socket]) ∧
    (s.m_blocking_mode = false →
      (∃ listener w0 w1, socket_accept env listener w0 = Res.ok s w1) →
      (socket_destroy env s w).world.calls =
        w.calls ++ [Call.srt_epoll_release s.m_epoll_io, Call.srt_close s.m_bind_socket]) ∧
    (s.m_blocking_mode = true →
      (socket_destroy env s w).world.calls = w.calls ++ [Call.srt_close s.m_bind_socket]) := by
  rw [socket_destroy_apply]
  refine ⟨rfl, ?_, ?_, ?_⟩
  · rintro hnb ⟨uri, w0, w1, h⟩
    obtain ⟨p, _, _, hm, _, _, _, _, hcase⟩ := socket_from_uri_ok env uri w0 w1 s h
    have hne : s.m_epoll_connect ≠ -1 := (hcase (by rw [← hm]; exact hnb)).2.1
    simp [hnb, hne]
  · rintro hnb ⟨listener, w0, w1, h⟩
    have he : s.m_epoll_connect = -1 := (socket_accept_ok env listener w0 w1 s h).1
    simp [hnb, he]
  · intro hb
    simp [hb]

/-- C6 at concrete sockets: the constructed one, the accepted one, a blocking one. -/
theorem destroy_releases_witness :
    (socket_destroy env_ok demo_socket world0).world.calls =
      [Call.srt_epoll_release 201, Call.srt_epoll_release 203, Call.srt_close 100] ∧
    (socket_destroy env_ok demo_accepted world0).world.calls =
      [Call.srt_epoll_release 205, Call.srt_close 301] ∧
    (socket_destroy env_ok demo_blocking world0).world.calls = [Call.srt_close 100] :=
  ⟨(destroy_releases env_ok demo_socket world0).2.1 rfl
      ⟨uri_nonblocking, world0, _, rfl⟩,
    (destroy_releases env_ok demo_accepted world0).2.2.1 rfl
      ⟨demo_socket, world0, _, rfl⟩,
    (destroy_releases env_ok demo_blocking world0).2.2.2 rfl⟩

/-! ## Statistics -/

/-- C7, as the code has it: when the statistics query succeeds,
`statistics_csv(true)` gives the header, an end of line, the data line and an
end of line; the header has exactly 28 comma-separated fields; and, provided no
formatted counter contains a comma, the data line has 28 fields too, the i-th
being the counter that the i-th header field names. -/
theorem statistics_csv_layout {F : Type} (env : Env F) (this : socket) (w : World)
    (hok : (env.srt_bstats w.calls this.m_bind_socket true).1 ≠ SRT_ERROR)
    (hcomma : ∀ v ∈ csv_values env this (env.srt_bstats w.calls this.m_bind_socket true).2,
      ',' ∉ v.data) :
    socket_statistics_csv env this true w =
      Res.ok
        ("" ++ csv_header ++ "\n"
          ++ csv_data env this (env.srt_bstats w.calls this.m_bind_socket true).2 ++ "\n")
        ⟨w.calls ++ [Call.srt_bstats this.m_bind_socket true], w.log⟩ ∧
    (csv_fields csv_header).length = 28 ∧
    (csv_fields
      (csv_data env this (env.srt_bstats w.calls this.m_bind_socket true).2)).length = 28 ∧
    (csv_fields (csv_data env this (env.srt_bstats w.calls this.m_bind_socket true).2)).map some
      = (csv_fields csv_header).map
          (counter_named env this (env.srt_bstats w.calls this.m_bind_socket true).2) := by
  refine ⟨statistics_csv_apply env this w hok, ?_, ?_, ?_⟩
  · rw [csv_header_fields]; rfl
  · rw [csv_data_fields env this _ hcomma]; rfl
  · rw [csv_data_fields env this _ hcomma, csv_header_fields]
    rfl

/-- C7 at a concrete library and snapshot: 28 fields on both lines. -/
theorem statistics_csv_layout_witness :
    (env_ok.srt_bstats world0.calls demo_socket.m_bind_socket true).1 ≠ SRT_ERROR ∧
    (∀ v ∈ csv_values env_ok demo_socket demo_stats, ',' ∉ v.data) ∧
    (csv_fields (csv_data env_ok demo_socket demo_stats)).length = 28 :=
  ⟨by decide, by decide,
    (statistics_csv_layout env_ok demo_socket world0 (by decide) (by decide)).2.2.1⟩

/-- C7 as stated fails: on a concrete library the first line of
`statistics_csv(true)` does not have 27 comma-separated fields. -/
theorem statistics_csv_not_27_fields :
    ¬ ∃ out w1 header rest,
      socket_statistics_csv env_ok demo_socket true world0 = Res.ok out w1 ∧
      csv_lines out = header :: rest ∧
      (csv_fields header).length = 27 := by
  rintro ⟨out, w1, header, rest, hout, hlines, hlen⟩
  rw [statistics_csv_apply env_ok demo_socket world0 (by decide)] at hout
  injection hout with ho _
  subst ho
  have hl : csv_lines
      ("" ++ csv_header ++ "\n"
        ++ csv_data env_ok demo_socket
            (env_ok.srt_bstats world0.calls demo_socket.m_bind_socket true).2 ++ "\n")
      = [csv_header, csv_data env_ok demo_socket demo_stats, ""] :=
    csv_lines_two _ _ (by decide) (by decide)
  rw [hl] at hlines
  injection hlines with hh _
  subst hh
  rw [csv_header_fields] at hlen
  exact absurd hlen (by decide)

/-- C8, as the code has it: `statistics` never raises; it returns the result
code of the underlying query together with the structure filled in, so a
failed query shows as the returned code `SRT_ERROR`.  It is `statistics_csv`
that raises a `socket_exception` when the query fails. -/
theorem statistics_returns_code {F : Type} (env : Env F) (this : socket) (w : World) :
    socket_statistics env this w =
      Res.ok (env.srt_bstats w.calls this.m_bind_socket true)
        ⟨w.calls ++ [Call.srt_bstats this.m_bind_socket true], w.log⟩ ∧
    ((env.srt_bstats w.calls this.m_bind_socket true).1 = SRT_ERROR →
      ∀ print_header,
        (socket_statistics_csv env this print_header w).exception =
          some ⟨"error at socket::statistics: " ++
            (env.UDT_getlasterror
              (w.calls ++ [Call.srt_bstats this.m_bind_socket true])).message⟩ ∧
        (socket_statistics_csv env this print_header w).returned = none) := by
  refine ⟨rfl, ?_⟩
  intro hfail print_header
  unfold socket_statistics_csv
  simp only [bind, Op.bind, call]
  rw [if_pos hfail.symm]
  simp only [bind, Op.bind, raise_exception_udt_apply]
  exact ⟨rfl, rfl⟩

/-- C8 at a concrete library whose statistics query fails. -/
theorem statistics_returns_code_witness :
    (env_stats_fail.srt_bstats world0.calls demo_socket.m_bind_socket true).1 = SRT_ERROR ∧
    (socket_statistics_csv env_stats_fail demo_socket true world0).exception =
      some ⟨"error at socket::statistics: Invalid socket ID"⟩ :=
  ⟨rfl, ((statistics_returns_code env_stats_fail demo_socket world0).2 rfl true).1⟩

/-- C8 as stated fails: the query fails, and `statistics` returns normally
with the error code instead of raising. -/
theorem statistics_failure_not_raised :
    (env_stats_fail.srt_bstats world0.calls demo_socket.m_bind_socket true).1 = SRT_ERROR ∧
    (socket_statistics env_stats_fail demo_socket world0).exception = none ∧
    (socket_statistics env_stats_fail demo_socket world0).returned.map Prod.fst
      = some SRT_ERROR :=
  ⟨rfl, rfl, rfl⟩

/-! ## Option failures -/

/-- C10 at two failing inputs.  First: the connect-phase multiplexer 201 is
created, binding it to the handle fails, and the constructor raises.  Second:
both multiplexers are created and bound, the option collaborator reports
`FAILURE`, and the constructor raises.  In both runs the calls made up to the
failure contain no release of any multiplexer. -/
theorem construction_failure_leaks_multiplexer :
    (socket_from_uri env_bind_fail uri_nonblocking world0 =
      Res.raised ⟨"Invalid epoll ID"⟩
        ⟨[Call.srt_create_socket, Call.srt_epoll_create,
          Call.srt_epoll_add_usock 201 100 12, Call.srt_getlasterror_str], []⟩ ∧
      env_bind_fail.srt_epoll_create [Call.srt_create_socket] = 201 ∧
      ∀ eid, (socket_from_uri env_bind_fail uri_nonblocking world0).world.calls.count
        (Call.srt_epoll_release eid) = 0) ∧
    (socket_from_uri env_option_fail uri_nonblocking world0 =
      Res.raised ⟨"Success"⟩
        ⟨[Call.srt_create_socket, Call.srt_epoll_create,
          Call.srt_epoll_add_usock 201 100 12, Call.srt_epoll_create,
          Call.srt_epoll_add_usock 203 100 13,
          Call.srt_setsockopt 100 SRT_SOCKOPT.SRTO_RCVSYN 0,
          Call.SrtConfigurePre 100 "127.0.0.1" [("latency", "120")],
          Call.srt_getlasterror_str],
         ["WARNING: failed to set options: ", "latency, ", ""]⟩ ∧
      ∀ eid, (socket_from_uri env_option_fail uri_nonblocking world0).world.calls.count
        (Call.srt_epoll_release eid) = 0) := by
  have h1 : socket_from_uri env_bind_fail uri_nonblocking world0 =
      Res.raised ⟨"Invalid epoll ID"⟩
        ⟨[Call.srt_create_socket, Call.srt_epoll_create,
          Call.srt_epoll_add_usock 201 100 12, Call.srt_getlasterror_str], []⟩ := rfl
  have h2 : socket_from_uri env_option_fail uri_nonblocking world0 =
      Res.raised ⟨"Success"⟩
        ⟨[Call.srt_create_socket, Call.srt_epoll_create,
          Call.srt_epoll_add_usock 201 100 12, Call.srt_epoll_create,
          Call.srt_epoll_add_usock 203 100 13,
          Call.srt_setsockopt 100 SRT_SOCKOPT.SRTO_RCVSYN 0,
          Call.SrtConfigurePre 100 "127.0.0.1" [("latency", "120")],
          Call.srt_getlasterror_str],
         ["WARNING: failed to set options: ", "latency, ", ""]⟩ := rfl
  refine ⟨⟨h1, rfl, ?_⟩, h2, ?_⟩
  · intro eid
    rw [h1]
    simp [List.count_cons]
  · intro eid
    rw [h2]
    simp [List.count_cons]

end Xtransmit
